import Mathlib

/-!
Verification of the Cosmic Defender game engine core
(`src/app/page.tsx`, class `GameEngine`) against its natural-language
specification.  The engine is shallowly embedded: JavaScript numbers are
modelled as rationals, the player's power-up `Map` as an insertion-ordered
association list, `Math.random()` as an injected stream of values, and
`Math.sin` as an injected function; every callback invocation is recorded
as an emitted event.
-/

namespace CosmicDefender

/-- 2D vector of rational coordinates (the source's `Vector2D`). -/
structure Vector2D where
  x : ℚ
  y : ℚ
deriving DecidableEq, Repr

/-- Base shape shared by all entities (the source's `GameObject`). -/
structure GameObject where
  position : Vector2D
  velocity : Vector2D
  size : Vector2D
  active : Bool
deriving DecidableEq, Repr

/-- Power-up kinds (the source's `PowerUp['type']`). -/
inductive PowerUpKind where
  | rapidFire
  | shield
  | multiShot
deriving DecidableEq, Repr

/-- Enemy kinds (the source's `Enemy['type']`). -/
inductive EnemyKind where
  | basic
  | fast
  | heavy
deriving DecidableEq, Repr

/-- Projectile ownership (the source's `Projectile['owner']`). -/
inductive Owner where
  | player
  | enemy
deriving DecidableEq, Repr

/-- The player's power-up mapping: the source's JS `Map<string, number>`,
kept as an insertion-ordered association list. -/
abbrev PMap := List (PowerUpKind × ℚ)

/-- JS `Map.has`. -/
def PMap.has (m : PMap) (k : PowerUpKind) : Bool :=
  m.any fun e => decide (e.1 = k)

/-- JS `Map.set`: overwrites in place when the key exists (keeping its
insertion position), otherwise appends. -/
def PMap.set (m : PMap) (k : PowerUpKind) (v : ℚ) : PMap :=
  if m.has k then m.map fun e => if e.1 = k then (k, v) else e
  else m ++ [(k, v)]

/-- JS `Map.get` as an option (first matching entry). -/
def PMap.lookup : PMap → PowerUpKind → Option ℚ
  | [], _ => none
  | e :: rest, k => if e.1 = k then some e.2 else PMap.lookup rest k

/-- The source's `Player` interface. -/
structure Player where
  position : Vector2D
  velocity : Vector2D
  size : Vector2D
  active : Bool
  health : ℚ
  shootCooldown : ℚ
  powerUps : PMap
deriving DecidableEq, Repr

/-- The source's `Enemy` interface. -/
structure Enemy where
  position : Vector2D
  velocity : Vector2D
  size : Vector2D
  active : Bool
  type : EnemyKind
  health : ℚ
  points : ℚ
  shootCooldown : ℚ
deriving DecidableEq, Repr

/-- The source's `Projectile` interface. -/
structure Projectile where
  position : Vector2D
  velocity : Vector2D
  size : Vector2D
  active : Bool
  damage : ℚ
  owner : Owner
deriving DecidableEq, Repr

/-- The source's `PowerUp` interface. -/
structure PowerUp where
  position : Vector2D
  velocity : Vector2D
  size : Vector2D
  active : Bool
  type : PowerUpKind
  duration : ℚ
deriving DecidableEq, Repr

/-- The source's `Particle` interface. -/
structure Particle where
  position : Vector2D
  velocity : Vector2D
  size : Vector2D
  active : Bool
  life : ℚ
  maxLife : ℚ
  color : String
deriving DecidableEq, Repr

/-- View of a player as a `GameObject`, for the collision test. -/
def Player.toObj (p : Player) : GameObject :=
  ⟨p.position, p.velocity, p.size, p.active⟩

/-- View of an enemy as a `GameObject`, for the collision test. -/
def Enemy.toObj (e : Enemy) : GameObject :=
  ⟨e.position, e.velocity, e.size, e.active⟩

/-- View of a projectile as a `GameObject`, for the collision test. -/
def Projectile.toObj (p : Projectile) : GameObject :=
  ⟨p.position, p.velocity, p.size, p.active⟩

/-- View of a power-up as a `GameObject`, for the collision test. -/
def PowerUp.toObj (p : PowerUp) : GameObject :=
  ⟨p.position, p.velocity, p.size, p.active⟩

/-- Input flags (the source's `input` field). -/
structure Input where
  left : Bool
  right : Bool
  shoot : Bool
deriving DecidableEq, Repr

/-- Callback invocations recorded as events, in invocation order. -/
inductive Event where
  | scoreChange (score : ℚ)
  | livesChange (lives : ℚ)
  | levelChange (level : ℚ)
  | powerUpChange (powerUps : List (PowerUpKind × ℚ))
  | gameOver
deriving DecidableEq, Repr

/-- Recognizer for the game-over event. -/
def Event.isGameOver : Event → Bool
  | .gameOver => true
  | _ => false

/-- Recognizer for lives-change events. -/
def Event.isLivesChange : Event → Bool
  | .livesChange _ => true
  | _ => false

/-- Recognizer for score-change events. -/
def Event.isScoreChange : Event → Bool
  | .scoreChange _ => true
  | _ => false

/-- Payload of a score-change event, if any. -/
def Event.scorePayload : Event → Option ℚ
  | .scoreChange v => some v
  | _ => none

/-- Stream of `Math.random()` values with a cursor; each call consumes
the next value. -/
structure Rng where
  vals : ℕ → ℚ
  idx : ℕ

/-- One `Math.random()` call. -/
def Rng.next (r : Rng) : ℚ × Rng := (r.vals r.idx, ⟨r.vals, r.idx + 1⟩)

/-- The source's `PLAYER_SPEED` constant. -/
def PLAYER_SPEED : ℚ := 300

/-- The source's `PROJECTILE_SPEED` constant. -/
def PROJECTILE_SPEED : ℚ := 400

/-- The source's `ENEMY_SPAWN_RATE` constant (ms). -/
def ENEMY_SPAWN_RATE : ℚ := 2000

/-- The source's `POWERUP_SPAWN_RATE` constant (ms). -/
def POWERUP_SPAWN_RATE : ℚ := 15000

/-- Whole engine state (the mutable fields of the source's `GameEngine`
class, plus the canvas dimensions it reads). -/
structure GameState where
  canvasWidth : ℚ
  canvasHeight : ℚ
  lastTime : ℚ
  frameCount : ℕ
  score : ℚ
  lives : ℚ
  level : ℚ
  gameSpeed : ℚ
  input : Input
  player : Player
  enemies : List Enemy
  projectiles : List Projectile
  powerUps : List PowerUp
  particles : List Particle
  enemySpawnTimer : ℚ
  powerUpSpawnTimer : ℚ
deriving DecidableEq, Repr

/-- The source's `checkCollision`: a corner-anchored AABB overlap test
with strict inequalities. -/
def checkCollision (obj1 obj2 : GameObject) : Bool :=
  decide (obj1.position.x < obj2.position.x + obj2.size.x) &&
  decide (obj1.position.x + obj1.size.x > obj2.position.x) &&
  decide (obj1.position.y < obj2.position.y + obj2.size.y) &&
  decide (obj1.position.y + obj1.size.y > obj2.position.y)

/-- Modelled from the spec: overlap of rectangles *centered* at
`position` with extents `size`, strict on all four edges (§4.2 of the
spec); used only to compare the spec's wording against the source's
`checkCollision`. -/
def centeredOverlap (obj1 obj2 : GameObject) : Bool :=
  decide (obj1.position.x - obj1.size.x / 2 < obj2.position.x + obj2.size.x / 2) &&
  decide (obj1.position.x + obj1.size.x / 2 > obj2.position.x - obj2.size.x / 2) &&
  decide (obj1.position.y - obj1.size.y / 2 < obj2.position.y + obj2.size.y / 2) &&
  decide (obj1.position.y + obj1.size.y / 2 > obj2.position.y - obj2.size.y / 2)

/-- The source's `createPlayerProjectile`; returns the list of projectiles
pushed, in push order. -/
def createPlayerProjectile (player : Player) : List Projectile :=
  let projectile : Projectile :=
    { position := { x := player.position.x, y := player.position.y - player.size.y / 2 }
      velocity := { x := 0, y := -PROJECTILE_SPEED }
      size := { x := 4, y := 12 }
      active := true
      damage := 25
      owner := Owner.player }
  if player.powerUps.has .multiShot then
    let leftProjectile : Projectile :=
      { projectile with
        position := { x := projectile.position.x - 15, y := projectile.position.y }
        velocity := { x := -50, y := -PROJECTILE_SPEED } }
    let rightProjectile : Projectile :=
      { projectile with
        position := { x := projectile.position.x + 15, y := projectile.position.y }
        velocity := { x := 50, y := -PROJECTILE_SPEED } }
    [projectile, leftProjectile, rightProjectile]
  else
    [projectile]

/-- The source's `createEnemyProjectile`. -/
def createEnemyProjectile (enemy : Enemy) : Projectile :=
  { position := { x := enemy.position.x, y := enemy.position.y + enemy.size.y / 2 }
    velocity := { x := 0, y := PROJECTILE_SPEED * 0.6 }
    size := { x := 3, y := 8 }
    active := true
    damage := 20
    owner := Owner.enemy }

/-- The source's `createParticles`; each particle consumes three
`Math.random()` values (velocity x, velocity y, life). -/
def createParticles (position : Vector2D) (color : String) :
    ℕ → Rng → List Particle × Rng
  | 0, r => ([], r)
  | n + 1, r =>
    let vx := (r.next).1
    let r1 := (r.next).2
    let vy := (r1.next).1
    let r2 := (r1.next).2
    let lf := (r2.next).1
    let r3 := (r2.next).2
    let particle : Particle :=
      { position := position
        velocity := { x := (vx - 0.5) * 200, y := (vy - 0.5) * 200 }
        size := { x := 3, y := 3 }
        active := true
        life := 500 + lf * 500
        maxLife := 1000
        color := color }
    let cp := createParticles position color n r3
    (particle :: cp.1, cp.2)

/-- The source's `updatePlayer`: movement, clamping, cooldown, shooting,
power-up countdown, and the per-tick power-up callback. -/
def updatePlayer (s : GameState) (deltaTime : ℚ) : GameState × List Event :=
  let dt := deltaTime / 1000
  let p := s.player
  let vx : ℚ := if s.input.right then PLAYER_SPEED else if s.input.left then -PLAYER_SPEED else 0
  let px := p.position.x + vx * dt
  let px := max (p.size.x / 2) (min (s.canvasWidth - p.size.x / 2) px)
  let cooldown := max 0 (p.shootCooldown - deltaTime)
  let p1 : Player :=
    { p with
      position := { x := px, y := p.position.y }
      velocity := { x := vx, y := p.velocity.y }
      shootCooldown := cooldown }
  let shooting := s.input.shoot && decide (cooldown ≤ 0)
  let newProjectiles := if shooting then createPlayerProjectile p1 else []
  let p2 :=
    if shooting then
      { p1 with shootCooldown := if p1.powerUps.has .rapidFire then 100 else 250 }
    else p1
  let newPowerUps : PMap := p2.powerUps.filterMap fun e =>
    let newTimeLeft := e.2 - deltaTime
    if newTimeLeft ≤ 0 then none else some (e.1, newTimeLeft)
  let activePowerUps := newPowerUps.map fun e => (e.1, e.2 / 1000)
  let p3 := { p2 with powerUps := newPowerUps }
  ({ s with player := p3, projectiles := s.projectiles ++ newProjectiles },
   [Event.powerUpChange activePowerUps])

/-- Loop body of the source's `updateEnemies`, threading the random
stream; returns the updated enemies and the enemy projectiles pushed. -/
def updateEnemiesAux (s : GameState) (deltaTime : ℚ) :
    List Enemy → Rng → List Enemy × List Projectile × Rng
  | [], r => ([], [], r)
  | enemy :: rest, r =>
    if enemy.active then
      let dt := deltaTime / 1000
      let pos : Vector2D :=
        { x := enemy.position.x + enemy.velocity.x * dt * s.gameSpeed
          y := enemy.position.y + enemy.velocity.y * dt * s.gameSpeed }
      let active := if pos.y > s.canvasHeight + 50 then false else enemy.active
      let cd := max 0 (enemy.shootCooldown - deltaTime)
      if cd ≤ 0 then
        let roll := (r.next).1
        let r1 := (r.next).2
        if roll < 0.005 then
          let e1 : Enemy := { enemy with position := pos, active := active, shootCooldown := cd }
          let proj := createEnemyProjectile e1
          let roll2 := (r1.next).1
          let r2 := (r1.next).2
          let e2 := { e1 with shootCooldown := 1000 + roll2 * 2000 }
          let o := updateEnemiesAux s deltaTime rest r2
          (e2 :: o.1, proj :: o.2.1, o.2.2)
        else
          let o := updateEnemiesAux s deltaTime rest r1
          ({ enemy with position := pos, active := active, shootCooldown := cd } :: o.1,
           o.2.1, o.2.2)
      else
        let o := updateEnemiesAux s deltaTime rest r
        ({ enemy with position := pos, active := active, shootCooldown := cd } :: o.1,
         o.2.1, o.2.2)
    else
      let o := updateEnemiesAux s deltaTime rest r
      (enemy :: o.1, o.2.1, o.2.2)

/-- The source's `updateEnemies`. -/
def updateEnemies (s : GameState) (deltaTime : ℚ) (r : Rng) : GameState × Rng :=
  let o := updateEnemiesAux s deltaTime s.enemies r
  ({ s with enemies := o.1, projectiles := s.projectiles ++ o.2.1 }, o.2.2)

/-- Loop body of the source's `updateProjectiles` for one projectile. -/
def updateProjectileStep (s : GameState) (deltaTime : ℚ) (projectile : Projectile) : Projectile :=
  if projectile.active then
    let dt := deltaTime / 1000
    let pos : Vector2D :=
      { x := projectile.position.x + projectile.velocity.x * dt
        y := projectile.position.y + projectile.velocity.y * dt }
    let active :=
      if pos.y < -10 ∨ pos.y > s.canvasHeight + 10 ∨
         pos.x < -10 ∨ pos.x > s.canvasWidth + 10 then false else projectile.active
    { projectile with position := pos, active := active }
  else projectile

/-- The source's `updateProjectiles`. -/
def updateProjectiles (s : GameState) (deltaTime : ℚ) : GameState :=
  { s with projectiles := s.projectiles.map (updateProjectileStep s deltaTime) }

/-- Loop body of the source's `updatePowerUps` for one power-up; `sinFn`
models `Math.sin`. -/
def updatePowerUpStep (sinFn : ℚ → ℚ) (s : GameState) (deltaTime : ℚ) (powerUp : PowerUp) :
    PowerUp :=
  if powerUp.active then
    let y := powerUp.position.y + sinFn ((s.frameCount : ℚ) * 0.1) * 0.5
    let duration := powerUp.duration - deltaTime
    let active := if duration ≤ 0 then false else powerUp.active
    { powerUp with position := { x := powerUp.position.x, y := y }
                   duration := duration
                   active := active }
  else powerUp

/-- The source's `updatePowerUps`. -/
def updatePowerUps (sinFn : ℚ → ℚ) (s : GameState) (deltaTime : ℚ) : GameState :=
  { s with powerUps := s.powerUps.map (updatePowerUpStep sinFn s deltaTime) }

/-- Loop body of the source's `updateParticles` for one particle. -/
def updateParticleStep (deltaTime : ℚ) (particle : Particle) : Particle :=
  if particle.active then
    let dt := deltaTime / 1000
    let pos : Vector2D :=
      { x := particle.position.x + particle.velocity.x * dt
        y := particle.position.y + particle.velocity.y * dt }
    let life := particle.life - deltaTime
    let active := if life ≤ 0 then false else particle.active
    { particle with position := pos, life := life, active := active }
  else particle

/-- The source's `updateParticles`. -/
def updateParticles (s : GameState) (deltaTime : ℚ) : GameState :=
  { s with particles := s.particles.map (updateParticleStep deltaTime) }

/-- The source's `spawnEnemy`; consumes four random values (type, x,
horizontal drift, initial shoot cooldown). -/
def spawnEnemy (s : GameState) (r : Rng) : Enemy × Rng :=
  let enemyTypes : List EnemyKind := [.basic, .fast, .heavy]
  let tRoll := (r.next).1
  let r1 := (r.next).2
  let randomType := enemyTypes.getD (⌊tRoll * 3⌋).toNat .basic
  let xRoll := (r1.next).1
  let r2 := (r1.next).2
  let vRoll := (r2.next).1
  let r3 := (r2.next).2
  let cRoll := (r3.next).1
  let r4 := (r3.next).2
  let enemy : Enemy :=
    { position := { x := xRoll * (s.canvasWidth - 40) + 20, y := -30 }
      velocity := { x := (vRoll - 0.5) * 50, y := 80 }
      size := { x := 30, y := 30 }
      active := true
      type := randomType
      health := if randomType = .heavy then 75 else if randomType = .fast then 25 else 50
      points := if randomType = .heavy then 200 else if randomType = .fast then 150 else 100
      shootCooldown := cRoll * 2000 }
  let enemy :=
    if randomType = .fast then
      { enemy with velocity := { x := enemy.velocity.x, y := 120 }, size := { x := 25, y := 25 } }
    else if randomType = .heavy then
      { enemy with velocity := { x := enemy.velocity.x, y := 50 }, size := { x := 40, y := 40 } }
    else enemy
  (enemy, r4)

/-- The source's `spawnPowerUp`; consumes two random values (type, x). -/
def spawnPowerUp (s : GameState) (r : Rng) : PowerUp × Rng :=
  let powerUpTypes : List PowerUpKind := [.rapidFire, .shield, .multiShot]
  let tRoll := (r.next).1
  let r1 := (r.next).2
  let randomType := powerUpTypes.getD (⌊tRoll * 3⌋).toNat .rapidFire
  let xRoll := (r1.next).1
  let r2 := (r1.next).2
  ({ position := { x := xRoll * (s.canvasWidth - 30) + 15, y := -20 }
     velocity := { x := 0, y := 60 }
     size := { x := 25, y := 25 }
     active := true
     type := randomType
     duration := 8000 }, r2)

/-- The source's `updateSpawning`. -/
def updateSpawning (s : GameState) (deltaTime : ℚ) (r : Rng) : GameState × Rng :=
  let t1 := s.enemySpawnTimer - deltaTime
  let s1 :=
    if t1 ≤ 0 then
      { s with enemies := s.enemies ++ [(spawnEnemy s r).1],
               enemySpawnTimer := ENEMY_SPAWN_RATE / s.gameSpeed }
    else { s with enemySpawnTimer := t1 }
  let r1 := if t1 ≤ 0 then (spawnEnemy s r).2 else r
  let t2 := s1.powerUpSpawnTimer - deltaTime
  if t2 ≤ 0 then
    ({ s1 with powerUps := s1.powerUps ++ [(spawnPowerUp s1 r1).1],
               powerUpSpawnTimer := POWERUP_SPAWN_RATE }, (spawnPowerUp s1 r1).2)
  else ({ s1 with powerUpSpawnTimer := t2 }, r1)

/-- Result of the inner enemy loop of collision pass 1 for one player
projectile. -/
structure Pass1Out where
  enemies : List Enemy
  hit : Bool
  score : ℚ
  events : List Event
  parts : List Particle
  rng : Rng

/-- Inner enemy loop of collision pass 1 (player projectiles × enemies).
The source deactivates the projectile on a hit but neither breaks nor
re-checks its `active` flag, so the loop keeps testing the remaining
enemies; `hit` records whether any hit deactivated the projectile. -/
def pass1Enemies (projectile : Projectile) :
    List Enemy → ℚ → Rng → Pass1Out
  | [], score, r => ⟨[], false, score, [], [], r⟩
  | enemy :: rest, score, r =>
    if enemy.active && checkCollision projectile.toObj enemy.toObj then
      let health := enemy.health - projectile.damage
      let cp1 := createParticles enemy.position "#ff6b6b" 5 r
      if health ≤ 0 then
        let score1 := score + enemy.points
        let cp2 := createParticles enemy.position "#ffd93d" 10 cp1.2
        let o := pass1Enemies projectile rest score1 cp2.2
        ⟨{ enemy with health := health, active := false } :: o.enemies, true, o.score,
         Event.scoreChange score1 :: o.events, cp1.1 ++ cp2.1 ++ o.parts, o.rng⟩
      else
        let o := pass1Enemies projectile rest score cp1.2
        ⟨{ enemy with health := health } :: o.enemies, true, o.score, o.events,
         cp1.1 ++ o.parts, o.rng⟩
    else
      let o := pass1Enemies projectile rest score r
      ⟨enemy :: o.enemies, o.hit, o.score, o.events, o.parts, o.rng⟩

/-- Result of a whole collision pass over the projectile list. -/
structure CollOut where
  projectiles : List Projectile
  enemies : List Enemy
  score : ℚ
  events : List Event
  parts : List Particle
  rng : Rng

/-- Outer projectile loop of collision pass 1: only projectiles that are
active and player-owned at loop entry are processed. -/
def pass1Projectiles :
    List Projectile → List Enemy → ℚ → Rng → CollOut
  | [], enemies, score, r => ⟨[], enemies, score, [], [], r⟩
  | projectile :: rest, enemies, score, r =>
    if projectile.active && decide (projectile.owner = Owner.player) then
      let o1 := pass1Enemies projectile enemies score r
      let o2 := pass1Projectiles rest o1.enemies o1.score o1.rng
      ⟨{ projectile with active := projectile.active && !o1.hit } :: o2.projectiles,
       o2.enemies, o2.score, o1.events ++ o2.events, o1.parts ++ o2.parts, o2.rng⟩
    else
      let o2 := pass1Projectiles rest enemies score r
      ⟨projectile :: o2.projectiles, o2.enemies, o2.score, o2.events, o2.parts, o2.rng⟩

/-- Result of collision pass 2 (enemy projectiles × player). -/
structure Pass2Out where
  projectiles : List Projectile
  lives : ℚ
  events : List Event
  parts : List Particle
  rng : Rng

/-- Collision pass 2: enemy projectiles against the player.  The shield
check is per hit; the hitting projectile is consumed unconditionally. -/
def pass2Projectiles (player : Player) (shield : Bool) :
    List Projectile → ℚ → Rng → Pass2Out
  | [], lives, r => ⟨[], lives, [], [], r⟩
  | projectile :: rest, lives, r =>
    if projectile.active && decide (projectile.owner = Owner.enemy) &&
        checkCollision projectile.toObj player.toObj then
      if shield then
        let o := pass2Projectiles player shield rest lives r
        ⟨{ projectile with active := false } :: o.projectiles, o.lives, o.events, o.parts, o.rng⟩
      else
        let lives1 := lives - 1
        let cp := createParticles player.position "#ff4757" 8 r
        let evs := Event.livesChange lives1 :: (if lives1 ≤ 0 then [Event.gameOver] else [])
        let o := pass2Projectiles player shield rest lives1 cp.2
        ⟨{ projectile with active := false } :: o.projectiles, o.lives, evs ++ o.events,
         cp.1 ++ o.parts, o.rng⟩
    else
      let o := pass2Projectiles player shield rest lives r
      ⟨projectile :: o.projectiles, o.lives, o.events, o.parts, o.rng⟩

/-- Result of collision pass 3 (player × enemies, body collision). -/
structure Pass3Out where
  enemies : List Enemy
  lives : ℚ
  events : List Event
  parts : List Particle
  rng : Rng

/-- Collision pass 3: body collisions deactivate the enemy regardless of
shield; damage only when unshielded. -/
def pass3Enemies (player : Player) (shield : Bool) :
    List Enemy → ℚ → Rng → Pass3Out
  | [], lives, r => ⟨[], lives, [], [], r⟩
  | enemy :: rest, lives, r =>
    if enemy.active && checkCollision player.toObj enemy.toObj then
      if shield then
        let o := pass3Enemies player shield rest lives r
        ⟨{ enemy with active := false } :: o.enemies, o.lives, o.events, o.parts, o.rng⟩
      else
        let lives1 := lives - 1
        let cp := createParticles player.position "#ff6b6b" 12 r
        let evs := Event.livesChange lives1 :: (if lives1 ≤ 0 then [Event.gameOver] else [])
        let o := pass3Enemies player shield rest lives1 cp.2
        ⟨{ enemy with active := false } :: o.enemies, o.lives, evs ++ o.events,
         cp.1 ++ o.parts, o.rng⟩
    else
      let o := pass3Enemies player shield rest lives r
      ⟨enemy :: o.enemies, o.lives, o.events, o.parts, o.rng⟩

/-- Result of collision pass 4 (player × power-ups). -/
structure Pass4Out where
  powerUps : List PowerUp
  playerPowerUps : PMap
  parts : List Particle
  rng : Rng

/-- Collision pass 4: pickup deactivates the power-up and writes its
current remaining `duration` into the player's mapping. -/
def pass4PowerUps (player : Player) :
    List PowerUp → PMap → Rng → Pass4Out
  | [], m, r => ⟨[], m, [], r⟩
  | powerUp :: rest, m, r =>
    if powerUp.active && checkCollision player.toObj powerUp.toObj then
      let m1 := m.set powerUp.type powerUp.duration
      let cp := createParticles powerUp.position "#6c5ce7" 8 r
      let o := pass4PowerUps player rest m1 cp.2
      ⟨{ powerUp with active := false } :: o.powerUps, o.playerPowerUps,
       cp.1 ++ o.parts, o.rng⟩
    else
      let o := pass4PowerUps player rest m r
      ⟨powerUp :: o.powerUps, o.playerPowerUps, o.parts, o.rng⟩

/-- The source's `handleCollisions`: the four passes in order, with the
shield flag read from the player's mapping (unchanged during passes
1–3). -/
def handleCollisions (s : GameState) (r : Rng) : GameState × List Event × Rng :=
  let o1 := pass1Projectiles s.projectiles s.enemies s.score r
  let shield := s.player.powerUps.has .shield
  let o2 := pass2Projectiles s.player shield o1.projectiles s.lives o1.rng
  let o3 := pass3Enemies s.player shield o1.enemies o2.lives o2.rng
  let o4 := pass4PowerUps s.player s.powerUps s.player.powerUps o3.rng
  ({ s with
      projectiles := o2.projectiles
      enemies := o3.enemies
      powerUps := o4.powerUps
      player := { s.player with powerUps := o4.playerPowerUps }
      score := o1.score
      lives := o3.lives
      particles := s.particles ++ o1.parts ++ o2.parts ++ o3.parts ++ o4.parts },
   o1.events ++ o2.events ++ o3.events, o4.rng)

/-- The source's `updateGameState`: recompute level from score and adjust
`gameSpeed` on change. -/
def updateGameState (s : GameState) : GameState × List Event :=
  let newLevel : ℚ := ((⌊s.score / 1000⌋ : ℤ) : ℚ) + 1
  if newLevel ≠ s.level then
    ({ s with level := newLevel, gameSpeed := 1 + (newLevel - 1) * 0.2 },
     [Event.levelChange newLevel])
  else (s, [])

/-- The source's `cleanup`: filter all four collections to active entries. -/
def cleanup (s : GameState) : GameState :=
  { s with
      enemies := s.enemies.filter (·.active)
      projectiles := s.projectiles.filter (·.active)
      powerUps := s.powerUps.filter (·.active)
      particles := s.particles.filter (·.active) }

/-- The source's `update(timestamp)`: the whole per-tick pipeline, in
call order, collecting every callback invocation. -/
def update (sinFn : ℚ → ℚ) (s : GameState) (timestamp : ℚ) (r : Rng) :
    GameState × List Event × Rng :=
  let deltaTime := timestamp - s.lastTime
  let s0 := { s with lastTime := timestamp, frameCount := s.frameCount + 1 }
  let oP := updatePlayer s0 deltaTime
  let oE := updateEnemies oP.1 deltaTime r
  let s3 := updateProjectiles oE.1 deltaTime
  let s4 := updatePowerUps sinFn s3 deltaTime
  let s5 := updateParticles s4 deltaTime
  let oS := updateSpawning s5 deltaTime oE.2
  let oC := handleCollisions oS.1 oS.2
  let oG := updateGameState oC.1
  (cleanup oG.1, oP.2 ++ oC.2.1 ++ oG.2, oC.2.2)

/-- The source's `GameEngine` constructor state. -/
def GameEngine.init (canvasWidth canvasHeight : ℚ) : GameState :=
  { canvasWidth := canvasWidth
    canvasHeight := canvasHeight
    lastTime := 0
    frameCount := 0
    score := 0
    lives := 3
    level := 1
    gameSpeed := 1
    input := ⟨false, false, false⟩
    player :=
      { position := { x := canvasWidth / 2, y := canvasHeight - 60 }
        velocity := { x := 0, y := 0 }
        size := { x := 30, y := 30 }
        active := true
        health := 100
        shootCooldown := 0
        powerUps := [] }
    enemies := []
    projectiles := []
    powerUps := []
    particles := []
    enemySpawnTimer := 0
    powerUpSpawnTimer := 0 }

/-- The source's `reset()`, with the four callback invocations it makes. -/
def reset (s : GameState) : GameState × List Event :=
  ({ s with
      score := 0
      lives := 3
      level := 1
      gameSpeed := 1
      player := { s.player with
        position := { x := s.canvasWidth / 2, y := s.canvasHeight - 60 }
        health := 100
        powerUps := [] }
      enemies := []
      projectiles := []
      powerUps := []
      particles := []
      enemySpawnTimer := 0
      powerUpSpawnTimer := POWERUP_SPAWN_RATE },
   [Event.scoreChange 0, Event.livesChange 3, Event.levelChange 1, Event.powerUpChange []])

/-! ## Basic lemmas -/

/-- The collision test reads only positions and sizes, never velocity or
the active flag. -/
theorem checkCollision_congr {a b a' b' : GameObject}
    (hpa : a'.position = a.position) (hsa : a'.size = a.size)
    (hpb : b'.position = b.position) (hsb : b'.size = b.size) :
    checkCollision a' b' = checkCollision a b := by
  simp [checkCollision, hpa, hsa, hpb, hsb]

/-- Looking up a key just written by `PMap.set` yields the written value. -/
theorem PMap.lookup_set (m : PMap) (k : PowerUpKind) (v : ℚ) :
    (PMap.set m k v).lookup k = some v := by
  induction m with
  | nil => simp [PMap.set, PMap.has, PMap.lookup]
  | cons e rest ih =>
    have hcons : PMap.has (e :: rest) k = (decide (e.1 = k) || PMap.has rest k) := by
      simp [PMap.has]
    by_cases he : e.1 = k
    · simp [PMap.set, PMap.has, PMap.lookup, he]
    · cases hr : PMap.has rest k with
      | true =>
        have h1 : PMap.has (e :: rest) k = true := by
          rw [hcons, hr]; simp
        simp only [PMap.set, h1, if_true, List.map_cons, if_neg he]
        simp only [PMap.set, hr, if_true] at ih
        simpa [PMap.lookup, he] using ih
      | false =>
        have h1 : PMap.has (e :: rest) k = false := by
          rw [hcons, hr]; simp [he]
        simp only [PMap.set, h1, Bool.false_eq_true, if_false, List.cons_append]
        simp only [PMap.set, hr, Bool.false_eq_true, if_false] at ih
        simpa [PMap.lookup, he] using ih

/-! ## Collision pass 4 (power-up pickup) -/

/-- Characterization of collision pass 4: every active power-up
overlapping the player is deactivated (others are untouched), and the
player's mapping becomes the left fold of `set type duration` over the
picked-up power-ups, in list order. -/
theorem pass4PowerUps_spec (player : Player) :
    ∀ (l : List PowerUp) (m : PMap) (r : Rng),
      (pass4PowerUps player l m r).powerUps =
        l.map (fun p => if p.active && checkCollision player.toObj p.toObj
          then { p with active := false } else p) ∧
      (pass4PowerUps player l m r).playerPowerUps =
        (l.filter (fun p => p.active && checkCollision player.toObj p.toObj)).foldl
          (fun acc p => acc.set p.type p.duration) m := by
  intro l
  induction l with
  | nil => intro m r; simp [pass4PowerUps]
  | cons p rest ih =>
    intro m r
    by_cases h : (p.active && checkCollision player.toObj p.toObj) = true
    · have hih := ih (PMap.set m p.type p.duration) (createParticles p.position "#6c5ce7" 8 r).2
      simp only [pass4PowerUps, h, if_true, List.map_cons, List.filter_cons, List.foldl_cons]
      exact ⟨by rw [hih.1], hih.2⟩
    · have hih := ih m r
      simp only [pass4PowerUps, h, Bool.false_eq_true, if_false, List.map_cons,
        List.filter_cons, List.foldl_cons, eq_false_of_ne_true h]
      exact ⟨by rw [hih.1], hih.2⟩

/-- Unfolding of `checkCollision` into its four strict comparisons. -/
theorem checkCollision_eq_true (obj1 obj2 : GameObject) :
    checkCollision obj1 obj2 = true ↔
      (obj1.position.x < obj2.position.x + obj2.size.x ∧
       obj2.position.x < obj1.position.x + obj1.size.x ∧
       obj1.position.y < obj2.position.y + obj2.size.y ∧
       obj2.position.y < obj1.position.y + obj1.size.y) := by
  unfold checkCollision
  rw [Bool.and_eq_true, Bool.and_eq_true, Bool.and_eq_true]
  constructor
  · intro h
    exact ⟨of_decide_eq_true h.1.1.1, of_decide_eq_true h.1.1.2,
           of_decide_eq_true h.1.2, of_decide_eq_true h.2⟩
  · intro h
    exact ⟨⟨⟨decide_eq_true h.1, decide_eq_true h.2.1⟩,
           decide_eq_true h.2.2.1⟩, decide_eq_true h.2.2.2⟩

/-- Unfolding of the spec-side `centeredOverlap` into its comparisons. -/
theorem centeredOverlap_eq_true (obj1 obj2 : GameObject) :
    centeredOverlap obj1 obj2 = true ↔
      (obj1.position.x - obj1.size.x / 2 < obj2.position.x + obj2.size.x / 2 ∧
       obj2.position.x - obj2.size.x / 2 < obj1.position.x + obj1.size.x / 2 ∧
       obj1.position.y - obj1.size.y / 2 < obj2.position.y + obj2.size.y / 2 ∧
       obj2.position.y - obj2.size.y / 2 < obj1.position.y + obj1.size.y / 2) := by
  unfold centeredOverlap
  rw [Bool.and_eq_true, Bool.and_eq_true, Bool.and_eq_true]
  constructor
  · intro h
    exact ⟨of_decide_eq_true h.1.1.1, of_decide_eq_true h.1.1.2,
           of_decide_eq_true h.1.2, of_decide_eq_true h.2⟩
  · intro h
    exact ⟨⟨⟨decide_eq_true h.1, decide_eq_true h.2.1⟩,
           decide_eq_true h.2.2.1⟩, decide_eq_true h.2.2.2⟩

/-! ## Claim C2 -/

/-- C2, counterexample: with `obj1` at position (0,0) of size 30×30 and
`obj2` at position (20,0) of size 4×4, the source's `checkCollision`
reports a collision although the rectangles *centered* at the positions
with extents the sizes (the spec's reading) do not strictly overlap on
the x axis, so the claimed "if and only if" is false at this input. -/
theorem C2_counterexample :
    checkCollision ⟨⟨0, 0⟩, ⟨0, 0⟩, ⟨30, 30⟩, true⟩ ⟨⟨20, 0⟩, ⟨0, 0⟩, ⟨4, 4⟩, true⟩ = true ∧
    centeredOverlap ⟨⟨0, 0⟩, ⟨0, 0⟩, ⟨30, 30⟩, true⟩ ⟨⟨20, 0⟩, ⟨0, 0⟩, ⟨4, 4⟩, true⟩ = false := by
  constructor
  · rw [checkCollision_eq_true]
    norm_num
  · rw [Bool.eq_false_iff]
    intro h
    rw [centeredOverlap_eq_true] at h
    norm_num at h

/-- C2, amended: `checkCollision` returns true iff the axis-aligned
rectangles spanning `position` to `position + size` (position is the
minimum corner, not the center) intersect on both axes with strict
inequality on all four edges, for positive sizes. -/
theorem C2_amended (obj1 obj2 : GameObject)
    (h1 : 0 < obj1.size.x) (h2 : 0 < obj1.size.y)
    (h3 : 0 < obj2.size.x) (h4 : 0 < obj2.size.y) :
    checkCollision obj1 obj2 = true ↔
      (max obj1.position.x obj2.position.x
          < min (obj1.position.x + obj1.size.x) (obj2.position.x + obj2.size.x) ∧
       max obj1.position.y obj2.position.y
          < min (obj1.position.y + obj1.size.y) (obj2.position.y + obj2.size.y)) := by
  rw [checkCollision_eq_true]
  simp only [max_lt_iff, lt_min_iff]
  constructor
  · rintro ⟨a, b, c, d⟩
    refine ⟨⟨⟨?_, ?_⟩, ?_, ?_⟩, ⟨?_, ?_⟩, ?_, ?_⟩ <;> linarith
  · rintro ⟨⟨⟨-, a⟩, b, -⟩, ⟨-, c⟩, d, -⟩
    exact ⟨b, a, d, c⟩

/-- C2, witness: the amended characterization applied at a concrete
overlapping pair. -/
theorem C2_witness :
    checkCollision ⟨⟨0, 0⟩, ⟨0, 0⟩, ⟨30, 30⟩, true⟩ ⟨⟨10, 10⟩, ⟨0, 0⟩, ⟨25, 25⟩, true⟩ = true ↔
      (max (0 : ℚ) 10 < min (0 + 30) (10 + 25) ∧ max (0 : ℚ) 10 < min (0 + 30) (10 + 25)) :=
  C2_amended ⟨⟨0, 0⟩, ⟨0, 0⟩, ⟨30, 30⟩, true⟩ ⟨⟨10, 10⟩, ⟨0, 0⟩, ⟨25, 25⟩, true⟩
    (by norm_num) (by norm_num) (by norm_num) (by norm_num)

/-! ## Claim C6 -/

/-- C6: at collision resolution every active power-up overlapping the
player is deactivated, and the player's mapping is obtained by folding
`set type duration` over the picked-up power-ups in order — each write
stores the power-up's *current remaining* `duration` field and overwrites
any prior entry of that kind (`PMap.lookup_set`); moreover the on-screen
countdown (`updatePowerUpStep`) decrements that field by `deltaTime`
each tick, so the stored value is the remaining (not refilled) time. -/
theorem C6_powerUpPickup (s : GameState) (r : Rng) :
    (handleCollisions s r).1.powerUps =
      s.powerUps.map (fun p => if p.active && checkCollision s.player.toObj p.toObj
        then { p with active := false } else p) ∧
    (handleCollisions s r).1.player.powerUps =
      (s.powerUps.filter (fun p => p.active && checkCollision s.player.toObj p.toObj)).foldl
        (fun acc p => PMap.set acc p.type p.duration) s.player.powerUps ∧
    (∀ (m : PMap) (k : PowerUpKind) (v : ℚ), (PMap.set m k v).lookup k = some v) ∧
    (∀ (sinFn : ℚ → ℚ) (st : GameState) (deltaTime : ℚ) (pu : PowerUp),
      pu.active = true →
      (updatePowerUpStep sinFn st deltaTime pu).duration = pu.duration - deltaTime) := by
  refine ⟨?_, ?_, fun m k v => PMap.lookup_set m k v, ?_⟩
  · simp only [handleCollisions]
    exact (pass4PowerUps_spec s.player s.powerUps s.player.powerUps _).1
  · simp only [handleCollisions]
    exact (pass4PowerUps_spec s.player s.powerUps s.player.powerUps _).2
  · intro sinFn st deltaTime pu hpu
    simp [updatePowerUpStep, hpu]

/-- C6, witness: a shield power-up with 500 ms remaining overlapping the
player is picked up: it is deactivated and the mapping's shield entry
becomes exactly 500, overwriting a prior value of 300. -/
theorem C6_witness :
    (handleCollisions
        { canvasWidth := 800, canvasHeight := 600, lastTime := 0, frameCount := 0,
          score := 0, lives := 3, level := 1, gameSpeed := 1,
          input := ⟨false, false, false⟩,
          player := { position := ⟨400, 540⟩, velocity := ⟨0, 0⟩, size := ⟨30, 30⟩,
                      active := true, health := 100, shootCooldown := 0,
                      powerUps := [(.shield, 300)] },
          enemies := [], projectiles := [],
          powerUps := [{ position := ⟨405, 545⟩, velocity := ⟨0, 60⟩, size := ⟨25, 25⟩,
                         active := true, type := .shield, duration := 500 }],
          particles := [], enemySpawnTimer := 5000, powerUpSpawnTimer := 5000 }
        ⟨fun _ => 1/2, 0⟩).1.powerUps =
      [{ position := ⟨405, 545⟩, velocity := ⟨0, 60⟩, size := ⟨25, 25⟩,
         active := false, type := .shield, duration := 500 }] ∧
    (handleCollisions
        { canvasWidth := 800, canvasHeight := 600, lastTime := 0, frameCount := 0,
          score := 0, lives := 3, level := 1, gameSpeed := 1,
          input := ⟨false, false, false⟩,
          player := { position := ⟨400, 540⟩, velocity := ⟨0, 0⟩, size := ⟨30, 30⟩,
                      active := true, health := 100, shootCooldown := 0,
                      powerUps := [(.shield, 300)] },
          enemies := [], projectiles := [],
          powerUps := [{ position := ⟨405, 545⟩, velocity := ⟨0, 60⟩, size := ⟨25, 25⟩,
                         active := true, type := .shield, duration := 500 }],
          particles := [], enemySpawnTimer := 5000, powerUpSpawnTimer := 5000 }
        ⟨fun _ => 1/2, 0⟩).1.player.powerUps = [(.shield, 500)] ∧
    (updatePowerUpStep (fun _ => 1)
        { canvasWidth := 800, canvasHeight := 600, lastTime := 0, frameCount := 0,
          score := 0, lives := 3, level := 1, gameSpeed := 1,
          input := ⟨false, false, false⟩,
          player := { position := ⟨400, 540⟩, velocity := ⟨0, 0⟩, size := ⟨30, 30⟩,
                      active := true, health := 100, shootCooldown := 0,
                      powerUps := [(.shield, 300)] },
          enemies := [], projectiles := [],
          powerUps := [{ position := ⟨405, 545⟩, velocity := ⟨0, 60⟩, size := ⟨25, 25⟩,
                         active := true, type := .shield, duration := 500 }],
          particles := [], enemySpawnTimer := 5000, powerUpSpawnTimer := 5000 }
        100
        { position := ⟨405, 545⟩, velocity := ⟨0, 60⟩, size := ⟨25, 25⟩,
          active := true, type := .shield, duration := 500 }).duration = 400 := by
  have h := C6_powerUpPickup
    { canvasWidth := 800, canvasHeight := 600, lastTime := 0, frameCount := 0,
      score := 0, lives := 3, level := 1, gameSpeed := 1,
      input := ⟨false, false, false⟩,
      player := { position := ⟨400, 540⟩, velocity := ⟨0, 0⟩, size := ⟨30, 30⟩,
                  active := true, health := 100, shootCooldown := 0,
                  powerUps := [(.shield, 300)] },
      enemies := [], projectiles := [],
      powerUps := [{ position := ⟨405, 545⟩, velocity := ⟨0, 60⟩, size := ⟨25, 25⟩,
                     active := true, type := .shield, duration := 500 }],
      particles := [], enemySpawnTimer := 5000, powerUpSpawnTimer := 5000 }
    ⟨fun _ => 1/2, 0⟩
  refine ⟨?_, ?_, ?_⟩
  · rw [h.1]
    norm_num [checkCollision, Player.toObj, PowerUp.toObj]
  · rw [h.2.1]
    norm_num [checkCollision, Player.toObj, PowerUp.toObj, PMap.set, PMap.has]
  · rw [h.2.2.2 (fun _ => 1)
      { canvasWidth := 800, canvasHeight := 600, lastTime := 0, frameCount := 0,
        score := 0, lives := 3, level := 1, gameSpeed := 1,
        input := ⟨false, false, false⟩,
        player := { position := ⟨400, 540⟩, velocity := ⟨0, 0⟩, size := ⟨30, 30⟩,
                    active := true, health := 100, shootCooldown := 0,
                    powerUps := [(.shield, 300)] },
        enemies := [], projectiles := [],
        powerUps := [{ position := ⟨405, 545⟩, velocity := ⟨0, 60⟩, size := ⟨25, 25⟩,
                       active := true, type := .shield, duration := 500 }],
        particles := [], enemySpawnTimer := 5000, powerUpSpawnTimer := 5000 }
      100
      { position := ⟨405, 545⟩, velocity := ⟨0, 60⟩, size := ⟨25, 25⟩,
        active := true, type := .shield, duration := 500 } rfl]
    norm_num

/-! ## Claim C8 -/

/-- C8: `reset()`, from any state, restores score 0, lives 3, level 1,
gameSpeed 1, recenters the player, clears the player's power-up mapping,
empties all four transient collections, sets the enemy spawn timer to 0
and the power-up spawn timer to its full interval, and fires the four
state callbacks with exactly these reset values. -/
theorem C8_reset (s : GameState) :
    (reset s).1.score = 0 ∧
    (reset s).1.lives = 3 ∧
    (reset s).1.level = 1 ∧
    (reset s).1.gameSpeed = 1 ∧
    (reset s).1.player.position.x = s.canvasWidth / 2 ∧
    (reset s).1.player.position.y = s.canvasHeight - 60 ∧
    (reset s).1.player.powerUps = [] ∧
    (reset s).1.enemies = [] ∧
    (reset s).1.projectiles = [] ∧
    (reset s).1.powerUps = [] ∧
    (reset s).1.particles = [] ∧
    (reset s).1.enemySpawnTimer = 0 ∧
    (reset s).1.powerUpSpawnTimer = POWERUP_SPAWN_RATE ∧
    (reset s).2 = [Event.scoreChange 0, Event.livesChange 3, Event.levelChange 1,
                   Event.powerUpChange []] :=
  ⟨rfl, rfl, rfl, rfl, rfl, rfl, rfl, rfl, rfl, rfl, rfl, rfl, rfl, rfl⟩

/-! ## Claim C10 -/

/-- C10: a player shot creates exactly one projectile without the
multiShot power-up, and exactly three with it — the straight shot plus
one offset 15 px left with horizontal velocity −50 and one offset 15 px
right with horizontal velocity +50, all with damage 25 and owner
`player`. -/
theorem C10_playerShot (player : Player) :
    (PMap.has player.powerUps .multiShot = false →
      createPlayerProjectile player =
        [{ position := ⟨player.position.x, player.position.y - player.size.y / 2⟩,
           velocity := ⟨0, -PROJECTILE_SPEED⟩, size := ⟨4, 12⟩, active := true,
           damage := 25, owner := Owner.player }]) ∧
    (PMap.has player.powerUps .multiShot = true →
      createPlayerProjectile player =
        [{ position := ⟨player.position.x, player.position.y - player.size.y / 2⟩,
           velocity := ⟨0, -PROJECTILE_SPEED⟩, size := ⟨4, 12⟩, active := true,
           damage := 25, owner := Owner.player },
         { position := ⟨player.position.x - 15, player.position.y - player.size.y / 2⟩,
           velocity := ⟨-50, -PROJECTILE_SPEED⟩, size := ⟨4, 12⟩, active := true,
           damage := 25, owner := Owner.player },
         { position := ⟨player.position.x + 15, player.position.y - player.size.y / 2⟩,
           velocity := ⟨50, -PROJECTILE_SPEED⟩, size := ⟨4, 12⟩, active := true,
           damage := 25, owner := Owner.player }]) := by
  constructor
  · intro h
    simp only [createPlayerProjectile, h, Bool.false_eq_true, if_false]
  · intro h
    simp only [createPlayerProjectile, h, if_true]

/-- C10, witness: both branches of the characterization evaluated at
concrete players (one without and one with multiShot). -/
theorem C10_witness :
    createPlayerProjectile
        { position := ⟨400, 540⟩, velocity := ⟨0, 0⟩, size := ⟨30, 30⟩, active := true,
          health := 100, shootCooldown := 0, powerUps := [] } =
      [{ position := ⟨400, 525⟩, velocity := ⟨0, -PROJECTILE_SPEED⟩, size := ⟨4, 12⟩,
         active := true, damage := 25, owner := Owner.player }] ∧
    createPlayerProjectile
        { position := ⟨400, 540⟩, velocity := ⟨0, 0⟩, size := ⟨30, 30⟩, active := true,
          health := 100, shootCooldown := 0, powerUps := [(.multiShot, 1000)] } =
      [{ position := ⟨400, 525⟩, velocity := ⟨0, -PROJECTILE_SPEED⟩, size := ⟨4, 12⟩,
         active := true, damage := 25, owner := Owner.player },
       { position := ⟨385, 525⟩, velocity := ⟨-50, -PROJECTILE_SPEED⟩, size := ⟨4, 12⟩,
         active := true, damage := 25, owner := Owner.player },
       { position := ⟨415, 525⟩, velocity := ⟨50, -PROJECTILE_SPEED⟩, size := ⟨4, 12⟩,
         active := true, damage := 25, owner := Owner.player }] := by
  constructor
  · have h := (C10_playerShot
      { position := ⟨400, 540⟩, velocity := ⟨0, 0⟩, size := ⟨30, 30⟩, active := true,
        health := 100, shootCooldown := 0, powerUps := [] }).1 (by rfl)
    rw [h]
    norm_num
  · have h := (C10_playerShot
      { position := ⟨400, 540⟩, velocity := ⟨0, 0⟩, size := ⟨30, 30⟩, active := true,
        health := 100, shootCooldown := 0, powerUps := [(.multiShot, 1000)] }).2 (by rfl)
    rw [h]
    norm_num

/-! ## Step relations for the collision passes -/

/-- How collision pass 1 may transform one enemy: every field except
health and the active flag is untouched, deactivation is one-way, and an
enemy that was already inactive is left exactly as it was. -/
def EnemyStep (e e' : Enemy) : Prop :=
  e'.position = e.position ∧ e'.velocity = e.velocity ∧ e'.size = e.size ∧
  e'.type = e.type ∧ e'.points = e.points ∧ e'.shootCooldown = e.shootCooldown ∧
  (e'.active = true → e.active = true) ∧ (e.active = false → e' = e)

theorem enemyStep_refl (e : Enemy) : EnemyStep e e :=
  ⟨rfl, rfl, rfl, rfl, rfl, rfl, fun h => h, fun _ => rfl⟩

theorem enemyStep_trans {a b c : Enemy} (h1 : EnemyStep a b) (h2 : EnemyStep b c) :
    EnemyStep a c := by
  obtain ⟨p1, v1, s1, t1, q1, c1, a1, u1⟩ := h1
  obtain ⟨p2, v2, s2, t2, q2, c2, a2, u2⟩ := h2
  refine ⟨p2.trans p1, v2.trans v1, s2.trans s1, t2.trans t1, q2.trans q1,
    c2.trans c1, fun h => a1 (a2 h), fun h => ?_⟩
  have hb : b = a := u1 h
  have : c = b := u2 (hb ▸ h)
  exact this.trans hb

/-- How collision pass 1 may transform one projectile: only the active
flag can change, one-way, and enemy-owned or already-inactive
projectiles are left exactly as they were. -/
def ProjStep (p p' : Projectile) : Prop :=
  p'.position = p.position ∧ p'.velocity = p.velocity ∧ p'.size = p.size ∧
  p'.damage = p.damage ∧ p'.owner = p.owner ∧
  (p'.active = true → p.active = true) ∧ (p.active = false → p' = p) ∧
  (p.owner = Owner.enemy → p' = p)

theorem projStep_refl (p : Projectile) : ProjStep p p :=
  ⟨rfl, rfl, rfl, rfl, rfl, fun h => h, fun _ => rfl, fun _ => rfl⟩

/-- Transitivity helper for elementwise list relations. -/
theorem forall₂_trans {α : Type} {R : α → α → Prop}
    (hR : ∀ a b c, R a b → R b c → R a c) :
    ∀ {l₁ l₂ l₃ : List α}, List.Forall₂ R l₁ l₂ → List.Forall₂ R l₂ l₃ →
      List.Forall₂ R l₁ l₃ := by
  intro l₁ l₂ l₃ h12 h23
  induction h12 generalizing l₃ with
  | nil => cases h23; exact List.Forall₂.nil
  | cons hab htail ih =>
    cases h23 with
    | cons hbc htail' => exact List.Forall₂.cons (hR _ _ _ hab hbc) (ih htail')

/-- Index lookup through an elementwise relation. -/
theorem forall₂_getElem? {α : Type} {R : α → α → Prop} :
    ∀ {l₁ l₂ : List α}, List.Forall₂ R l₁ l₂ → ∀ {i : ℕ} {a : α},
      l₁[i]? = some a → ∃ b, l₂[i]? = some b ∧ R a b := by
  intro l₁ l₂ h
  induction h with
  | nil => intro i a ha; simp at ha
  | cons hab htail ih =>
    intro i a ha
    cases i with
    | zero =>
      simp only [List.getElem?_cons_zero, Option.some.injEq] at ha
      exact ⟨_, by simp, ha ▸ hab⟩
    | succ j =>
      simp only [List.getElem?_cons_succ] at ha ⊢
      exact ih ha

/-! ## Collision pass 1 lemmas -/

/-- The inner loop of pass 1 transforms enemies elementwise along
`EnemyStep`. -/
theorem pass1Enemies_enemies (projectile : Projectile) :
    ∀ (es : List Enemy) (score : ℚ) (r : Rng),
      List.Forall₂ EnemyStep es (pass1Enemies projectile es score r).enemies := by
  intro es
  induction es with
  | nil => intro score r; exact List.Forall₂.nil
  | cons e rest ih =>
    intro score r
    by_cases h : (e.active && checkCollision projectile.toObj e.toObj) = true
    · have hact : e.active = true := (Bool.and_eq_true ..).mp h |>.1
      by_cases hk : e.health - projectile.damage ≤ 0
      · simp only [pass1Enemies, h, if_true, hk]
        exact List.Forall₂.cons
          ⟨rfl, rfl, rfl, rfl, rfl, rfl, by simp, by simp [hact]⟩ (ih _ _)
      · simp only [pass1Enemies, h, if_true, hk, if_false]
        exact List.Forall₂.cons
          ⟨rfl, rfl, rfl, rfl, rfl, rfl, by simp [hact], by simp [hact]⟩ (ih _ _)
    · simp only [pass1Enemies, h, Bool.false_eq_true, if_false]
      exact List.Forall₂.cons (enemyStep_refl e) (ih _ _)

/-- Pass 1 transforms enemies elementwise along `EnemyStep`. -/
theorem pass1Projectiles_enemies :
    ∀ (ps : List Projectile) (es : List Enemy) (score : ℚ) (r : Rng),
      List.Forall₂ EnemyStep es (pass1Projectiles ps es score r).enemies := by
  intro ps
  induction ps with
  | nil =>
    intro es score r
    exact List.forall₂_same.mpr fun e _ => enemyStep_refl e
  | cons p rest ih =>
    intro es score r
    by_cases h : (p.active && decide (p.owner = Owner.player)) = true
    · simp only [pass1Projectiles, h, if_true]
      exact @forall₂_trans _ EnemyStep (fun a b c hab hbc => enemyStep_trans hab hbc)
        _ _ _ (pass1Enemies_enemies p es score r) (ih _ _ _)
    · simp only [pass1Projectiles, h, Bool.false_eq_true, if_false]
      exact ih _ _ _

/-- Pass 1 transforms projectiles elementwise along `ProjStep`; in
particular enemy-owned and already-inactive projectiles are untouched. -/
theorem pass1Projectiles_projectiles :
    ∀ (ps : List Projectile) (es : List Enemy) (score : ℚ) (r : Rng),
      List.Forall₂ ProjStep ps (pass1Projectiles ps es score r).projectiles := by
  intro ps
  induction ps with
  | nil => intro es score r; exact List.Forall₂.nil
  | cons p rest ih =>
    intro es score r
    by_cases h : (p.active && decide (p.owner = Owner.player)) = true
    · have hact : p.active = true := (Bool.and_eq_true ..).mp h |>.1
      simp only [pass1Projectiles, h, if_true]
      refine List.Forall₂.cons ⟨rfl, rfl, rfl, rfl, rfl, ?_, ?_, ?_⟩ (ih _ _ _)
      · intro ha
        exact hact
      · intro ha; rw [hact] at ha; cases ha
      · intro ho
        have : p.owner = Owner.player := of_decide_eq_true ((Bool.and_eq_true ..).mp h |>.2)
        rw [this] at ho; cases ho
    · simp only [pass1Projectiles, h, Bool.false_eq_true, if_false]
      exact List.Forall₂.cons (projStep_refl p) (ih _ _ _)

/-- All events emitted by the inner loop of pass 1 are score changes. -/
theorem pass1Enemies_events (projectile : Projectile) :
    ∀ (es : List Enemy) (score : ℚ) (r : Rng),
      ∀ ev ∈ (pass1Enemies projectile es score r).events, ev.isScoreChange = true := by
  intro es
  induction es with
  | nil => intro score r ev hev; simp [pass1Enemies] at hev
  | cons e rest ih =>
    intro score r ev hev
    by_cases h : (e.active && checkCollision projectile.toObj e.toObj) = true
    · by_cases hk : e.health - projectile.damage ≤ 0
      · simp only [pass1Enemies, h, if_true, hk, List.mem_cons] at hev
        rcases hev with rfl | hev
        · rfl
        · exact ih _ _ ev hev
      · simp only [pass1Enemies, h, if_true, hk, if_false] at hev
        exact ih _ _ ev hev
    · simp only [pass1Enemies, h, Bool.false_eq_true, if_false] at hev
      exact ih _ _ ev hev

/-- All events emitted by pass 1 are score changes. -/
theorem pass1Projectiles_events :
    ∀ (ps : List Projectile) (es : List Enemy) (score : ℚ) (r : Rng),
      ∀ ev ∈ (pass1Projectiles ps es score r).events, ev.isScoreChange = true := by
  intro ps
  induction ps with
  | nil => intro es score r ev hev; simp [pass1Projectiles] at hev
  | cons p rest ih =>
    intro es score r ev hev
    by_cases h : (p.active && decide (p.owner = Owner.player)) = true
    · simp only [pass1Projectiles, h, if_true, List.mem_append] at hev
      rcases hev with hev | hev
      · exact pass1Enemies_events p es score r ev hev
      · exact ih _ _ _ ev hev
    · simp only [pass1Projectiles, h, Bool.false_eq_true, if_false] at hev
      exact ih _ _ _ ev hev

/-! ## Collision passes 2 and 3 lemmas -/

/-- Expected number of game-over callback invocations when a sequence of
unshielded hits is applied starting from a given lives value: each hit
decrements lives and fires the callback iff the resulting value is ≤ 0. -/
def gameOverCount (lives : ℚ) : ℕ → ℕ
  | 0 => 0
  | n + 1 => (if lives - 1 ≤ 0 then 1 else 0) + gameOverCount (lives - 1) n

/-- Hit predicate of pass 2: active enemy projectile overlapping the
player. -/
def pass2Hit (player : Player) (p : Projectile) : Bool :=
  p.active && decide (p.owner = Owner.enemy) && checkCollision p.toObj player.toObj

/-- Hit predicate of pass 3: active enemy overlapping the player. -/
def pass3Hit (player : Player) (e : Enemy) : Bool :=
  e.active && checkCollision player.toObj e.toObj

/-- Pass 2 deactivates exactly the hitting projectiles, regardless of the
shield. -/
theorem pass2Projectiles_projectiles (player : Player) (shield : Bool) :
    ∀ (ps : List Projectile) (lives : ℚ) (r : Rng),
      (pass2Projectiles player shield ps lives r).projectiles =
        ps.map (fun p => if pass2Hit player p then { p with active := false } else p) := by
  intro ps
  induction ps with
  | nil => intro lives r; simp [pass2Projectiles]
  | cons p rest ih =>
    intro lives r
    by_cases h : pass2Hit player p = true
    · have hh : (p.active && decide (p.owner = Owner.enemy) &&
          checkCollision p.toObj player.toObj) = true := by
        simpa [pass2Hit] using h
      cases shield <;>
      · simp only [pass2Projectiles, hh, h, if_true, Bool.false_eq_true, if_false,
          List.map_cons]
        rw [ih]
    · have hh : (p.active && decide (p.owner = Owner.enemy) &&
          checkCollision p.toObj player.toObj) = false := by
        simpa [pass2Hit] using eq_false_of_ne_true h
      cases shield <;>
      · simp only [pass2Projectiles, hh, eq_false_of_ne_true h, Bool.false_eq_true,
          if_false, if_true, List.map_cons]
        rw [ih]

/-- With the shield active, pass 2 changes no lives and emits no event. -/
theorem pass2Projectiles_shield (player : Player) :
    ∀ (ps : List Projectile) (lives : ℚ) (r : Rng),
      (pass2Projectiles player true ps lives r).lives = lives ∧
      (pass2Projectiles player true ps lives r).events = [] := by
  intro ps
  induction ps with
  | nil => intro lives r; exact ⟨rfl, rfl⟩
  | cons p rest ih =>
    intro lives r
    by_cases h : (p.active && decide (p.owner = Owner.enemy) &&
        checkCollision p.toObj player.toObj) = true
    · simp only [pass2Projectiles, h, if_true]
      exact ih _ _
    · simp only [pass2Projectiles, eq_false_of_ne_true h, Bool.false_eq_true, if_false]
      exact ih _ _

/-- Without the shield, pass 2 decrements lives once per hit, fires one
lives-change event per hit, and fires the game-over callback exactly on
the hits whose resulting lives value is ≤ 0. -/
theorem pass2Projectiles_noShield (player : Player) :
    ∀ (ps : List Projectile) (lives : ℚ) (r : Rng),
      (pass2Projectiles player false ps lives r).lives =
        lives - ps.countP (pass2Hit player) ∧
      (pass2Projectiles player false ps lives r).events.countP Event.isGameOver =
        gameOverCount lives (ps.countP (pass2Hit player)) ∧
      (pass2Projectiles player false ps lives r).events.countP Event.isLivesChange =
        ps.countP (pass2Hit player) ∧
      (∀ ev ∈ (pass2Projectiles player false ps lives r).events,
        ev.isScoreChange = false) := by
  intro ps
  induction ps with
  | nil =>
    intro lives r
    refine ⟨by simp [pass2Projectiles], by simp [pass2Projectiles, gameOverCount], ?_, ?_⟩
    · simp [pass2Projectiles]
    · intro ev hev; simp [pass2Projectiles] at hev
  | cons p rest ih =>
    intro lives r
    by_cases h : pass2Hit player p = true
    · have hh : (p.active && decide (p.owner = Owner.enemy) &&
          checkCollision p.toObj player.toObj) = true := by
        simpa [pass2Hit] using h
      obtain ⟨ih1, ih2, ih3, ih4⟩ :=
        ih (lives - 1) (createParticles player.position "#ff4757" 8 r).2
      have hcnt : (p :: rest).countP (pass2Hit player) =
          rest.countP (pass2Hit player) + 1 := by
        simp [List.countP_cons, h]
      refine ⟨?_, ?_, ?_, ?_⟩
      · simp only [pass2Projectiles, hh, if_true, Bool.false_eq_true, if_false]
        rw [ih1, hcnt]
        push_cast
        ring
      · simp only [pass2Projectiles, hh, if_true, Bool.false_eq_true, if_false,
          List.cons_append, List.countP_cons, List.countP_append, hcnt, gameOverCount]
        rw [ih2]
        by_cases hz : lives - 1 ≤ 0 <;>
          simp [hz, Event.isGameOver, List.countP_cons, Nat.add_comm]
      · simp only [pass2Projectiles, hh, if_true, Bool.false_eq_true, if_false,
          List.cons_append, List.countP_cons, List.countP_append, hcnt]
        rw [ih3]
        by_cases hz : lives - 1 ≤ 0 <;>
          simp [hz, Event.isLivesChange, Event.isGameOver, List.countP_cons, Nat.add_comm]
      · intro ev hev
        simp only [pass2Projectiles, hh, if_true, Bool.false_eq_true, if_false,
          List.cons_append, List.mem_cons, List.mem_append] at hev
        rcases hev with rfl | hev
        · rfl
        rcases hev with hev | hev
        · by_cases hz : lives - 1 ≤ 0 <;> simp [hz] at hev
          subst hev; rfl
        · exact ih4 ev hev
    · have hh : (p.active && decide (p.owner = Owner.enemy) &&
          checkCollision p.toObj player.toObj) = false := by
        simpa [pass2Hit] using eq_false_of_ne_true h
      obtain ⟨ih1, ih2, ih3, ih4⟩ := ih lives r
      have hcnt : (p :: rest).countP (pass2Hit player) =
          rest.countP (pass2Hit player) := by
        simp [List.countP_cons, eq_false_of_ne_true h]
      refine ⟨?_, ?_, ?_, ?_⟩
      · simp only [pass2Projectiles, hh, Bool.false_eq_true, if_false]
        rw [ih1, hcnt]
      · simp only [pass2Projectiles, hh, Bool.false_eq_true, if_false]
        rw [ih2, hcnt]
      · simp only [pass2Projectiles, hh, Bool.false_eq_true, if_false]
        rw [ih3, hcnt]
      · intro ev hev
        simp only [pass2Projectiles, hh, Bool.false_eq_true, if_false] at hev
        exact ih4 ev hev

/-- Pass 3 deactivates exactly the active enemies in body contact with
the player, regardless of the shield. -/
theorem pass3Enemies_enemies (player : Player) (shield : Bool) :
    ∀ (es : List Enemy) (lives : ℚ) (r : Rng),
      (pass3Enemies player shield es lives r).enemies =
        es.map (fun e => if pass3Hit player e then { e with active := false } else e) := by
  intro es
  induction es with
  | nil => intro lives r; simp [pass3Enemies]
  | cons e rest ih =>
    intro lives r
    by_cases h : pass3Hit player e = true
    · have hh : (e.active && checkCollision player.toObj e.toObj) = true := by
        simpa [pass3Hit] using h
      cases shield <;>
      · simp only [pass3Enemies, hh, h, if_true, Bool.false_eq_true, if_false,
          List.map_cons]
        rw [ih]
    · have hh : (e.active && checkCollision player.toObj e.toObj) = false := by
        simpa [pass3Hit] using eq_false_of_ne_true h
      cases shield <;>
      · simp only [pass3Enemies, hh, eq_false_of_ne_true h, Bool.false_eq_true,
          if_false, if_true, List.map_cons]
        rw [ih]

/-- With the shield active, pass 3 changes no lives and emits no event. -/
theorem pass3Enemies_shield (player : Player) :
    ∀ (es : List Enemy) (lives : ℚ) (r : Rng),
      (pass3Enemies player true es lives r).lives = lives ∧
      (pass3Enemies player true es lives r).events = [] := by
  intro es
  induction es with
  | nil => intro lives r; exact ⟨rfl, rfl⟩
  | cons e rest ih =>
    intro lives r
    by_cases h : (e.active && checkCollision player.toObj e.toObj) = true
    · simp only [pass3Enemies, h, if_true]
      exact ih _ _
    · simp only [pass3Enemies, eq_false_of_ne_true h, Bool.false_eq_true, if_false]
      exact ih _ _

/-- Without the shield, pass 3 decrements lives once per body hit, fires
one lives-change event per hit, and fires the game-over callback exactly
on the hits whose resulting lives value is ≤ 0. -/
theorem pass3Enemies_noShield (player : Player) :
    ∀ (es : List Enemy) (lives : ℚ) (r : Rng),
      (pass3Enemies player false es lives r).lives =
        lives - es.countP (pass3Hit player) ∧
      (pass3Enemies player false es lives r).events.countP Event.isGameOver =
        gameOverCount lives (es.countP (pass3Hit player)) ∧
      (pass3Enemies player false es lives r).events.countP Event.isLivesChange =
        es.countP (pass3Hit player) ∧
      (∀ ev ∈ (pass3Enemies player false es lives r).events,
        ev.isScoreChange = false) := by
  intro es
  induction es with
  | nil =>
    intro lives r
    refine ⟨by simp [pass3Enemies], by simp [pass3Enemies, gameOverCount], ?_, ?_⟩
    · simp [pass3Enemies]
    · intro ev hev; simp [pass3Enemies] at hev
  | cons e rest ih =>
    intro lives r
    by_cases h : pass3Hit player e = true
    · have hh : (e.active && checkCollision player.toObj e.toObj) = true := by
        simpa [pass3Hit] using h
      obtain ⟨ih1, ih2, ih3, ih4⟩ :=
        ih (lives - 1) (createParticles player.position "#ff6b6b" 12 r).2
      have hcnt : (e :: rest).countP (pass3Hit player) =
          rest.countP (pass3Hit player) + 1 := by
        simp [List.countP_cons, h]
      refine ⟨?_, ?_, ?_, ?_⟩
      · simp only [pass3Enemies, hh, if_true, Bool.false_eq_true, if_false]
        rw [ih1, hcnt]
        push_cast
        ring
      · simp only [pass3Enemies, hh, if_true, Bool.false_eq_true, if_false,
          List.cons_append, List.countP_cons, List.countP_append, hcnt, gameOverCount]
        rw [ih2]
        by_cases hz : lives - 1 ≤ 0 <;>
          simp [hz, Event.isGameOver, List.countP_cons, Nat.add_comm]
      · simp only [pass3Enemies, hh, if_true, Bool.false_eq_true, if_false,
          List.cons_append, List.countP_cons, List.countP_append, hcnt]
        rw [ih3]
        by_cases hz : lives - 1 ≤ 0 <;>
          simp [hz, Event.isLivesChange, Event.isGameOver, List.countP_cons, Nat.add_comm]
      · intro ev hev
        simp only [pass3Enemies, hh, if_true, Bool.false_eq_true, if_false,
          List.cons_append, List.mem_cons, List.mem_append] at hev
        rcases hev with rfl | hev
        · rfl
        rcases hev with hev | hev
        · by_cases hz : lives - 1 ≤ 0 <;> simp [hz] at hev
          subst hev; rfl
        · exact ih4 ev hev
    · have hh : (e.active && checkCollision player.toObj e.toObj) = false := by
        simpa [pass3Hit] using eq_false_of_ne_true h
      obtain ⟨ih1, ih2, ih3, ih4⟩ := ih lives r
      have hcnt : (e :: rest).countP (pass3Hit player) =
          rest.countP (pass3Hit player) := by
        simp [List.countP_cons, eq_false_of_ne_true h]
      refine ⟨?_, ?_, ?_, ?_⟩
      · simp only [pass3Enemies, hh, Bool.false_eq_true, if_false]
        rw [ih1, hcnt]
      · simp only [pass3Enemies, hh, Bool.false_eq_true, if_false]
        rw [ih2, hcnt]
      · simp only [pass3Enemies, hh, Bool.false_eq_true, if_false]
        rw [ih3, hcnt]
      · intro ev hev
        simp only [pass3Enemies, hh, Bool.false_eq_true, if_false] at hev
        exact ih4 ev hev

/-- Sequential decomposition of the expected game-over count. -/
theorem gameOverCount_add (a : ℕ) :
    ∀ (lives : ℚ) (b : ℕ),
      gameOverCount lives (a + b) = gameOverCount lives a + gameOverCount (lives - a) b := by
  induction a with
  | zero => intro lives b; simp [gameOverCount]
  | succ n ih =>
    intro lives b
    have : n + 1 + b = (n + b) + 1 := by omega
    rw [this]
    simp only [gameOverCount, ih (lives - 1) b]
    have : lives - 1 - n = lives - (n + 1 : ℕ) := by push_cast; ring
    rw [this]
    omega

/-- Closed form of the expected game-over count for an integer lives
value: `n` unshielded hits fire the callback `n - min n (L - 1)⁺` times;
in particular exactly once when lives is 1 and one hit lands. -/
theorem gameOverCount_int (n : ℕ) :
    ∀ (L : ℤ), gameOverCount (L : ℚ) n = n - min n (L - 1).toNat := by
  induction n with
  | zero => intro L; simp [gameOverCount]
  | succ m ih =>
    intro L
    have hcast : (L : ℚ) - 1 = ((L - 1 : ℤ) : ℚ) := by push_cast; ring
    have hle : ((L : ℚ) - 1 ≤ 0) ↔ (L - 1 ≤ 0) := by
      rw [hcast]
      exact_mod_cast Int.cast_nonpos
    simp only [gameOverCount, hcast, ih (L - 1)]
    by_cases hz : L - 1 ≤ 0
    · rw [if_pos (by exact_mod_cast hz)]
      omega
    · rw [if_neg (by exact_mod_cast hz)]
      omega

/-- A score-change event is neither a lives-change nor a game-over. -/
theorem Event.isScoreChange_elim (ev : Event) (h : ev.isScoreChange = true) :
    ev.isLivesChange = false ∧ ev.isGameOver = false := by
  cases ev <;> simp_all [Event.isScoreChange, Event.isLivesChange, Event.isGameOver]

/-! ## Claim C4 -/

/-- C4: while the player's mapping contains a shield entry, a whole
collision-resolution call leaves lives unchanged and emits no
lives-change and no game-over event, yet every active enemy projectile
overlapping the player is still consumed and every active enemy
overlapping the player is still deactivated. -/
theorem C4_shield (s : GameState) (r : Rng)
    (hs : PMap.has s.player.powerUps .shield = true) :
    (handleCollisions s r).1.lives = s.lives ∧
    (∀ ev ∈ (handleCollisions s r).2.1, ev.isLivesChange = false ∧ ev.isGameOver = false) ∧
    (∀ (i : ℕ) (p : Projectile), s.projectiles[i]? = some p → p.active = true →
      p.owner = Owner.enemy → checkCollision p.toObj s.player.toObj = true →
      ∃ p', (handleCollisions s r).1.projectiles[i]? = some p' ∧ p'.active = false) ∧
    (∀ (i : ℕ) (e : Enemy), s.enemies[i]? = some e → e.active = true →
      checkCollision s.player.toObj e.toObj = true →
      ∃ e', (handleCollisions s r).1.enemies[i]? = some e' ∧ e'.active = false) := by
  simp only [handleCollisions, hs]
  set o1 := pass1Projectiles s.projectiles s.enemies s.score r with ho1
  refine ⟨?_, ?_, ?_, ?_⟩
  · have h3 := pass3Enemies_shield s.player o1.enemies
      (pass2Projectiles s.player true o1.projectiles s.lives o1.rng).lives
      (pass2Projectiles s.player true o1.projectiles s.lives o1.rng).rng
    have h2 := pass2Projectiles_shield s.player o1.projectiles s.lives o1.rng
    rw [h3.1, h2.1]
  · intro ev hev
    have h3 := pass3Enemies_shield s.player o1.enemies
      (pass2Projectiles s.player true o1.projectiles s.lives o1.rng).lives
      (pass2Projectiles s.player true o1.projectiles s.lives o1.rng).rng
    have h2 := pass2Projectiles_shield s.player o1.projectiles s.lives o1.rng
    rw [h3.2, h2.2] at hev
    simp only [List.append_nil] at hev
    exact Event.isScoreChange_elim ev (pass1Projectiles_events _ _ _ _ ev hev)
  · intro i p hip hact howner hcol
    obtain ⟨p₁, hp₁, hstep⟩ := forall₂_getElem? (pass1Projectiles_projectiles
      s.projectiles s.enemies s.score r) hip
    have hp₁p : p₁ = p := hstep.2.2.2.2.2.2.2 howner
    subst hp₁p
    rw [pass2Projectiles_projectiles s.player true o1.projectiles s.lives o1.rng]
    refine ⟨_, by rw [List.getElem?_map, hp₁]; rfl, ?_⟩
    have hhit : pass2Hit s.player p₁ = true := by
      simp [pass2Hit, hact, howner, hcol]
    simp [hhit]
  · intro i e hie hact hcol
    obtain ⟨e₁, he₁, hstep⟩ := forall₂_getElem? (pass1Projectiles_enemies
      s.projectiles s.enemies s.score r) hie
    rw [pass3Enemies_enemies s.player true o1.enemies
      (pass2Projectiles s.player true o1.projectiles s.lives o1.rng).lives
      (pass2Projectiles s.player true o1.projectiles s.lives o1.rng).rng]
    refine ⟨_, by rw [List.getElem?_map, he₁]; rfl, ?_⟩
    cases he₁a : e₁.active with
    | false => simp [pass3Hit, he₁a]
    | true =>
      have hcol₁ : checkCollision s.player.toObj e₁.toObj = true := by
        have hpos : e₁.toObj.position = e.toObj.position := by
          simpa [Enemy.toObj] using hstep.1
        have hsz : e₁.toObj.size = e.toObj.size := by
          simpa [Enemy.toObj] using hstep.2.2.1
        rw [checkCollision_congr rfl rfl hpos hsz]
        exact hcol
      have hhit : pass3Hit s.player e₁ = true := by
        simp [pass3Hit, he₁a, hcol₁]
      simp [hhit]

/-- Concrete shielded state used by the C4 witness: one enemy projectile
and one enemy, both overlapping the player, shield active. -/
def C4state : GameState :=
  { canvasWidth := 800, canvasHeight := 600, lastTime := 0, frameCount := 0,
    score := 0, lives := 3, level := 1, gameSpeed := 1,
    input := ⟨false, false, false⟩,
    player := { position := ⟨400, 540⟩, velocity := ⟨0, 0⟩, size := ⟨30, 30⟩,
                active := true, health := 100, shootCooldown := 0,
                powerUps := [(.shield, 5000)] },
    enemies := [{ position := ⟨395, 535⟩, velocity := ⟨0, 80⟩, size := ⟨30, 30⟩,
                  active := true, type := .basic, health := 50, points := 100,
                  shootCooldown := 500 }],
    projectiles := [{ position := ⟨400, 540⟩, velocity := ⟨0, 240⟩, size := ⟨3, 8⟩,
                      active := true, damage := 20, owner := .enemy }],
    powerUps := [], particles := [], enemySpawnTimer := 5000,
    powerUpSpawnTimer := 5000 }

/-- C4, witness: in the concrete shielded state, lives stay at 3 while
the hitting projectile and the contacting enemy are both deactivated. -/
theorem C4_witness :
    (handleCollisions C4state ⟨fun _ => 1/2, 0⟩).1.lives = 3 ∧
    (∃ p', (handleCollisions C4state ⟨fun _ => 1/2, 0⟩).1.projectiles[0]? = some p' ∧
      p'.active = false) ∧
    (∃ e', (handleCollisions C4state ⟨fun _ => 1/2, 0⟩).1.enemies[0]? = some e' ∧
      e'.active = false) := by
  have h := C4_shield C4state ⟨fun _ => 1/2, 0⟩ (by rfl)
  refine ⟨by rw [h.1]; rfl, ?_, ?_⟩
  · exact h.2.2.1 0 _ rfl rfl rfl (by norm_num [checkCollision, C4state,
      Projectile.toObj, Player.toObj])
  · exact h.2.2.2 0 _ rfl rfl (by norm_num [checkCollision, C4state,
      Enemy.toObj, Player.toObj])

/-! ## Claim C7 -/

/-- If no projectile is an active player projectile, pass 1 changes
nothing and emits nothing. -/
theorem pass1Projectiles_noop :
    ∀ (ps : List Projectile) (es : List Enemy) (score : ℚ) (r : Rng),
      (∀ p ∈ ps, (p.active && decide (p.owner = Owner.player)) = false) →
      pass1Projectiles ps es score r = ⟨ps, es, score, [], [], r⟩ := by
  intro ps
  induction ps with
  | nil => intro es score r _; rfl
  | cons p rest ih =>
    intro es score r hp
    have h : (p.active && decide (p.owner = Owner.player)) = false :=
      hp p (List.mem_cons_self p rest)
    simp only [pass1Projectiles, h, Bool.false_eq_true, if_false]
    rw [ih es score r fun q hq => hp q (List.mem_cons_of_mem p hq)]

/-- Within the inner loop for one projectile, every active enemy the
projectile overlaps receives exactly one full damage application. -/
theorem pass1Enemies_damage (projectile : Projectile) :
    ∀ (es : List Enemy) (score : ℚ) (r : Rng) (i : ℕ) (e : Enemy),
      es[i]? = some e → e.active = true →
      checkCollision projectile.toObj e.toObj = true →
      ∃ e', (pass1Enemies projectile es score r).enemies[i]? = some e' ∧
        e'.health = e.health - projectile.damage := by
  intro es
  induction es with
  | nil => intro score r i e hie; simp at hie
  | cons e0 rest ih =>
    intro score r i e hie hact hcol
    cases i with
    | zero =>
      simp only [List.getElem?_cons_zero, Option.some.injEq] at hie
      subst hie
      have h : (e0.active && checkCollision projectile.toObj e0.toObj) = true := by
        simp [hact, hcol]
      by_cases hk : e0.health - projectile.damage ≤ 0
      · simp only [pass1Enemies, h, if_true, hk, List.getElem?_cons_zero]
        exact ⟨_, rfl, rfl⟩
      · simp only [pass1Enemies, h, if_true, hk, if_false, List.getElem?_cons_zero]
        exact ⟨_, rfl, rfl⟩
    | succ j =>
      simp only [List.getElem?_cons_succ] at hie
      by_cases h : (e0.active && checkCollision projectile.toObj e0.toObj) = true
      · by_cases hk : e0.health - projectile.damage ≤ 0
        · simp only [pass1Enemies, h, if_true, hk, List.getElem?_cons_succ]
          exact ih _ _ j e hie hact hcol
        · simp only [pass1Enemies, h, if_true, hk, if_false, List.getElem?_cons_succ]
          exact ih _ _ j e hie hact hcol
      · simp only [pass1Enemies, h, Bool.false_eq_true, if_false, List.getElem?_cons_succ]
        exact ih _ _ j e hie hact hcol

/-- C7, counterexample: a single player projectile overlapping two
active enemies (each with 50 health) damages BOTH of them in the same
collision-resolution call — after the call both enemies are at health
25 — because the inner loop neither breaks nor re-checks the
projectile's active flag after its first hit; this refutes "inflicts
damage on at most one enemy during that tick". -/
theorem C7_counterexample :
    (handleCollisions
        { canvasWidth := 800, canvasHeight := 600, lastTime := 0, frameCount := 0,
          score := 0, lives := 3, level := 1, gameSpeed := 1,
          input := ⟨false, false, false⟩,
          player := { position := ⟨100, 540⟩, velocity := ⟨0, 0⟩, size := ⟨30, 30⟩,
                      active := true, health := 100, shootCooldown := 0, powerUps := [] },
          enemies := [
            { position := ⟨395, 295⟩, velocity := ⟨0, 80⟩, size := ⟨30, 30⟩,
              active := true, type := .basic, health := 50, points := 100,
              shootCooldown := 500 },
            { position := ⟨398, 298⟩, velocity := ⟨0, 80⟩, size := ⟨30, 30⟩,
              active := true, type := .basic, health := 50, points := 100,
              shootCooldown := 500 }],
          projectiles := [
            { position := ⟨400, 300⟩, velocity := ⟨0, -400⟩, size := ⟨4, 12⟩,
              active := true, damage := 25, owner := .player }],
          powerUps := [], particles := [], enemySpawnTimer := 5000,
          powerUpSpawnTimer := 5000 }
        ⟨fun _ => 1/2, 0⟩).1.enemies.map (fun e => e.health) = [25, 25] := by
  norm_num [handleCollisions, pass1Projectiles, pass1Enemies, pass2Projectiles,
    pass3Enemies, pass4PowerUps, checkCollision, createParticles, Rng.next, PMap.has,
    Player.toObj, Projectile.toObj, Enemy.toObj]

/-- C7, amended: a projectile that is inactive or enemy-owned when the
outer loop of pass 1 reaches it is not processed (the pass is then a
no-op), and an enemy that is inactive at the start of the pass is never
touched; but a player projectile deactivated by its first hit continues
through the remaining enemies of its inner loop and applies its damage
to every active enemy it overlaps in that same tick. -/
theorem C7_amended (ps : List Projectile) (es : List Enemy) (score : ℚ) (r : Rng) :
    ((∀ p ∈ ps, (p.active && decide (p.owner = Owner.player)) = false) →
      pass1Projectiles ps es score r = ⟨ps, es, score, [], [], r⟩) ∧
    (∀ (i : ℕ) (e : Enemy), es[i]? = some e → e.active = false →
      ∃ e', (pass1Projectiles ps es score r).enemies[i]? = some e' ∧ e' = e) ∧
    (∀ (p : Projectile), ps = [p] → p.active = true → p.owner = Owner.player →
      ∀ (i : ℕ) (e : Enemy), es[i]? = some e → e.active = true →
        checkCollision p.toObj e.toObj = true →
        ∃ e', (pass1Projectiles ps es score r).enemies[i]? = some e' ∧
          e'.health = e.health - p.damage) := by
  refine ⟨pass1Projectiles_noop ps es score r, ?_, ?_⟩
  · intro i e hie hina
    obtain ⟨e₁, he₁, hstep⟩ := forall₂_getElem? (pass1Projectiles_enemies ps es score r) hie
    exact ⟨e₁, he₁, hstep.2.2.2.2.2.2.2 hina⟩
  · intro p hps hact howner i e hie he hcol
    subst hps
    have h : (p.active && decide (p.owner = Owner.player)) = true := by
      simp [hact, howner]
    simp only [pass1Projectiles, h, if_true]
    exact pass1Enemies_damage p es score r i e hie he hcol

/-- C7, witness: the per-enemy damage characterization applied in a
concrete one-projectile, one-enemy state. -/
theorem C7_witness :
    ∃ e', (pass1Projectiles
        [{ position := ⟨400, 300⟩, velocity := ⟨0, -400⟩, size := ⟨4, 12⟩,
           active := true, damage := 25, owner := .player }]
        [{ position := ⟨395, 295⟩, velocity := ⟨0, 80⟩, size := ⟨30, 30⟩,
           active := true, type := .basic, health := 50, points := 100,
           shootCooldown := 500 }]
        0 ⟨fun _ => 1/2, 0⟩).enemies[0]? = some e' ∧ e'.health = 50 - 25 := by
  have h := (C7_amended
    [{ position := ⟨400, 300⟩, velocity := ⟨0, -400⟩, size := ⟨4, 12⟩,
       active := true, damage := 25, owner := .player }]
    [{ position := ⟨395, 295⟩, velocity := ⟨0, 80⟩, size := ⟨30, 30⟩,
       active := true, type := .basic, health := 50, points := 100,
       shootCooldown := 500 }]
    0 ⟨fun _ => 1/2, 0⟩).2.2 _ rfl rfl rfl 0 _ rfl rfl
    (by norm_num [checkCollision, Projectile.toObj, Enemy.toObj])
  exact h

/-! ## Claim C1 -/

/-- C1, counterexample: with lives = 1, no shield, and two enemy
projectiles overlapping the player, one `handleCollisions` call fires
the game-over callback TWICE (the engine keeps no fired-flag: every
unshielded hit that leaves lives ≤ 0 fires it again), refuting "invoked
at most once until the next reset()". -/
theorem C1_counterexample :
    ((handleCollisions
        { canvasWidth := 800, canvasHeight := 600, lastTime := 0, frameCount := 0,
          score := 0, lives := 1, level := 1, gameSpeed := 1,
          input := ⟨false, false, false⟩,
          player := { position := ⟨400, 540⟩, velocity := ⟨0, 0⟩, size := ⟨30, 30⟩,
                      active := true, health := 100, shootCooldown := 0, powerUps := [] },
          enemies := [],
          projectiles := [
            { position := ⟨400, 540⟩, velocity := ⟨0, 240⟩, size := ⟨3, 8⟩,
              active := true, damage := 20, owner := .enemy },
            { position := ⟨405, 545⟩, velocity := ⟨0, 240⟩, size := ⟨3, 8⟩,
              active := true, damage := 20, owner := .enemy }],
          powerUps := [], particles := [], enemySpawnTimer := 5000,
          powerUpSpawnTimer := 5000 }
        ⟨fun _ => 1/2, 0⟩).2.1.countP Event.isGameOver) = 2 := by
  norm_num [handleCollisions, pass1Projectiles, pass1Enemies, pass2Projectiles,
    pass3Enemies, pass4PowerUps, checkCollision, createParticles, Rng.next, PMap.has,
    Player.toObj, Projectile.toObj, Event.isGameOver, List.countP, List.countP.go]

/-- C1, amended: per collision-resolution call, without a shield and
with all player projectiles inactive, lives drop by the number `n` of
damaging hits (enemy-projectile hits plus body hits), and the game-over
callback fires once per hit whose resulting lives value is ≤ 0: in
total `n - min n (L-1)⁺` times for integer lives `L`.  It therefore
fires (once) at the tick on which lives first reaches 0, but it is NOT
limited to at most once per session — later unshielded hits fire it
again until `reset()`. -/
theorem C1_amended (s : GameState) (r : Rng) (L : ℤ)
    (hs : PMap.has s.player.powerUps .shield = false)
    (hp : ∀ p ∈ s.projectiles, (p.active && decide (p.owner = Owner.player)) = false)
    (hL : s.lives = (L : ℚ)) :
    (handleCollisions s r).1.lives =
      s.lives - (s.projectiles.countP (pass2Hit s.player) +
                 s.enemies.countP (pass3Hit s.player)) ∧
    (handleCollisions s r).2.1.countP Event.isGameOver =
      gameOverCount s.lives (s.projectiles.countP (pass2Hit s.player) +
                             s.enemies.countP (pass3Hit s.player)) ∧
    (handleCollisions s r).2.1.countP Event.isGameOver =
      (s.projectiles.countP (pass2Hit s.player) +
       s.enemies.countP (pass3Hit s.player)) -
        min (s.projectiles.countP (pass2Hit s.player) +
             s.enemies.countP (pass3Hit s.player)) (L - 1).toNat ∧
    (L = 1 →
      s.projectiles.countP (pass2Hit s.player) +
        s.enemies.countP (pass3Hit s.player) = 1 →
      (handleCollisions s r).2.1.countP Event.isGameOver = 1) := by
  have hno := pass1Projectiles_noop s.projectiles s.enemies s.score r hp
  simp only [handleCollisions, hs, hno]
  obtain ⟨h2a, h2b, h2c, h2d⟩ :=
    pass2Projectiles_noShield s.player s.projectiles s.lives r
  obtain ⟨h3a, h3b, h3c, h3d⟩ := pass3Enemies_noShield s.player s.enemies
    (pass2Projectiles s.player false s.projectiles s.lives r).lives
    (pass2Projectiles s.player false s.projectiles s.lives r).rng
  have hlives : (pass3Enemies s.player false s.enemies
      (pass2Projectiles s.player false s.projectiles s.lives r).lives
      (pass2Projectiles s.player false s.projectiles s.lives r).rng).lives =
      s.lives - (s.projectiles.countP (pass2Hit s.player) +
                 s.enemies.countP (pass3Hit s.player)) := by
    rw [h3a, h2a]; ring
  have hcount : (List.nil ++ (pass2Projectiles s.player false s.projectiles
        s.lives r).events ++ (pass3Enemies s.player false s.enemies
        (pass2Projectiles s.player false s.projectiles s.lives r).lives
        (pass2Projectiles s.player false s.projectiles s.lives r).rng).events).countP
        Event.isGameOver =
      gameOverCount s.lives (s.projectiles.countP (pass2Hit s.player) +
                             s.enemies.countP (pass3Hit s.player)) := by
    rw [List.nil_append, List.countP_append, h2b, h3b, h2a,
      gameOverCount_add]
  refine ⟨hlives, hcount, ?_, ?_⟩
  · rw [hcount, hL, gameOverCount_int]
  · intro hL1 hn1
    rw [hcount, hL, gameOverCount_int, hn1, hL1]
    simp

/-- Concrete state used by the C1 witness: lives 1, no shield, exactly
one damaging hit (an enemy projectile overlapping the player). -/
def C1state : GameState :=
  { canvasWidth := 800, canvasHeight := 600, lastTime := 0, frameCount := 0,
    score := 0, lives := 1, level := 1, gameSpeed := 1,
    input := ⟨false, false, false⟩,
    player := { position := ⟨400, 540⟩, velocity := ⟨0, 0⟩, size := ⟨30, 30⟩,
                active := true, health := 100, shootCooldown := 0, powerUps := [] },
    enemies := [],
    projectiles := [
      { position := ⟨400, 540⟩, velocity := ⟨0, 240⟩, size := ⟨3, 8⟩,
        active := true, damage := 20, owner := .enemy }],
    powerUps := [], particles := [], enemySpawnTimer := 5000,
    powerUpSpawnTimer := 5000 }

/-- C1, witness: at lives 1 with exactly one unshielded hit, the
game-over callback fires exactly once in the call. -/
theorem C1_witness :
    ((handleCollisions C1state ⟨fun _ => 1/2, 0⟩).2.1.countP Event.isGameOver) = 1 := by
  have h := C1_amended C1state ⟨fun _ => 1/2, 0⟩ 1 rfl
    (by
      intro p hp
      simp only [C1state, List.mem_singleton] at hp
      subst hp
      rfl)
    (by norm_num [C1state])
  exact h.2.2.2 rfl
    (by norm_num [C1state, pass2Hit, pass3Hit, checkCollision, List.countP,
      List.countP.go, Projectile.toObj, Player.toObj])

/-! ## Claim C9 -/

/-- The enemy update loop leaves an inactive enemy untouched at its
index. -/
theorem updateEnemiesAux_inactive (s : GameState) (deltaTime : ℚ) :
    ∀ (es : List Enemy) (r : Rng) (i : ℕ) (e : Enemy),
      es[i]? = some e → e.active = false →
      (updateEnemiesAux s deltaTime es r).1[i]? = some e := by
  intro es
  induction es with
  | nil => intro r i e hie; simp at hie
  | cons e0 rest ih =>
    intro r i e hie hina
    cases i with
    | zero =>
      simp only [List.getElem?_cons_zero, Option.some.injEq] at hie
      subst hie
      simp only [updateEnemiesAux, hina, Bool.false_eq_true, if_false,
        List.getElem?_cons_zero]
    | succ j =>
      simp only [List.getElem?_cons_succ] at hie
      by_cases ha : e0.active = true
      · by_cases hcd : max 0 (e0.shootCooldown - deltaTime) ≤ 0
        · by_cases hroll : (r.next).1 < 0.005
          · simp only [updateEnemiesAux, ha, if_true, hcd, hroll,
              List.getElem?_cons_succ]
            exact ih _ j e hie hina
          · simp only [updateEnemiesAux, ha, if_true, hcd, hroll, if_false,
              List.getElem?_cons_succ]
            exact ih _ j e hie hina
        · simp only [updateEnemiesAux, ha, if_true, hcd, if_false,
            List.getElem?_cons_succ]
          exact ih _ j e hie hina
      · simp only [updateEnemiesAux, ha, Bool.false_eq_true, if_false,
          List.getElem?_cons_succ]
        exact ih _ j e hie hina

/-- C9: immediately after cleanup (the last step of `update`), every
entity in each of the four transient collections is active; and
deactivation is terminal for every entity-mutating step: each update
loop leaves an inactive entity exactly as it is, and a whole
collision-resolution call preserves inactive enemies, projectiles and
power-ups at their indices — no operation ever sets `active` back to
true. -/
theorem C9_terminalDeactivation (sinFn : ℚ → ℚ) (s : GameState) (timestamp : ℚ)
    (r : Rng) (deltaTime : ℚ) :
    (∀ e ∈ (update sinFn s timestamp r).1.enemies, e.active = true) ∧
    (∀ p ∈ (update sinFn s timestamp r).1.projectiles, p.active = true) ∧
    (∀ p ∈ (update sinFn s timestamp r).1.powerUps, p.active = true) ∧
    (∀ p ∈ (update sinFn s timestamp r).1.particles, p.active = true) ∧
    (∀ (i : ℕ) (e : Enemy), s.enemies[i]? = some e → e.active = false →
      (updateEnemies s deltaTime r).1.enemies[i]? = some e) ∧
    (∀ p : Projectile, p.active = false → updateProjectileStep s deltaTime p = p) ∧
    (∀ p : PowerUp, p.active = false → updatePowerUpStep sinFn s deltaTime p = p) ∧
    (∀ p : Particle, p.active = false → updateParticleStep deltaTime p = p) ∧
    (∀ (i : ℕ) (e : Enemy), s.enemies[i]? = some e → e.active = false →
      (handleCollisions s r).1.enemies[i]? = some e) ∧
    (∀ (i : ℕ) (p : Projectile), s.projectiles[i]? = some p → p.active = false →
      (handleCollisions s r).1.projectiles[i]? = some p) ∧
    (∀ (i : ℕ) (p : PowerUp), s.powerUps[i]? = some p → p.active = false →
      (handleCollisions s r).1.powerUps[i]? = some p) := by
  refine ⟨?_, ?_, ?_, ?_, ?_, ?_, ?_, ?_, ?_, ?_, ?_⟩
  · intro e he
    simp only [update, cleanup, List.mem_filter] at he
    exact he.2
  · intro p hp
    simp only [update, cleanup, List.mem_filter] at hp
    exact hp.2
  · intro p hp
    simp only [update, cleanup, List.mem_filter] at hp
    exact hp.2
  · intro p hp
    simp only [update, cleanup, List.mem_filter] at hp
    exact hp.2
  · intro i e hie hina
    simp only [updateEnemies]
    exact updateEnemiesAux_inactive s deltaTime s.enemies r i e hie hina
  · intro p hp
    simp [updateProjectileStep, hp]
  · intro p hp
    simp [updatePowerUpStep, hp]
  · intro p hp
    simp [updateParticleStep, hp]
  · intro i e hie hina
    obtain ⟨e₁, he₁, hstep⟩ := forall₂_getElem? (pass1Projectiles_enemies
      s.projectiles s.enemies s.score r) hie
    have he₁e : e₁ = e := hstep.2.2.2.2.2.2.2 hina
    subst he₁e
    simp only [handleCollisions]
    rw [pass3Enemies_enemies, List.getElem?_map, he₁]
    have : pass3Hit s.player e₁ = false := by
      simp [pass3Hit, hina]
    simp [this]
  · intro i p hip hina
    obtain ⟨p₁, hp₁, hstep⟩ := forall₂_getElem? (pass1Projectiles_projectiles
      s.projectiles s.enemies s.score r) hip
    have hp₁p : p₁ = p := hstep.2.2.2.2.2.2.1 hina
    subst hp₁p
    simp only [handleCollisions]
    rw [pass2Projectiles_projectiles, List.getElem?_map, hp₁]
    have : pass2Hit s.player p₁ = false := by
      simp [pass2Hit, hina]
    simp [this]
  · intro i p hip hina
    simp only [handleCollisions]
    rw [(pass4PowerUps_spec s.player s.powerUps s.player.powerUps _).1,
      List.getElem?_map, hip]
    simp [hina]

/-- Concrete state used by the C9 witness: one inactive entity of each
kind. -/
def C9state : GameState :=
  { canvasWidth := 800, canvasHeight := 600, lastTime := 0, frameCount := 0,
    score := 0, lives := 3, level := 1, gameSpeed := 1,
    input := ⟨false, false, false⟩,
    player := { position := ⟨400, 540⟩, velocity := ⟨0, 0⟩, size := ⟨30, 30⟩,
                active := true, health := 100, shootCooldown := 0, powerUps := [] },
    enemies := [{ position := ⟨400, 540⟩, velocity := ⟨0, 80⟩, size := ⟨30, 30⟩,
                  active := false, type := .basic, health := 50, points := 100,
                  shootCooldown := 500 }],
    projectiles := [{ position := ⟨400, 540⟩, velocity := ⟨0, 240⟩, size := ⟨3, 8⟩,
                      active := false, damage := 20, owner := .enemy }],
    powerUps := [{ position := ⟨400, 540⟩, velocity := ⟨0, 60⟩, size := ⟨25, 25⟩,
                   active := false, type := .shield, duration := 4000 }],
    particles := [], enemySpawnTimer := 5000, powerUpSpawnTimer := 5000 }

/-- C9, witness: in the concrete state, the inactive enemy, projectile
and power-up survive both the update loops and a collision-resolution
call completely unchanged (they overlap the player, yet stay as they
are because they are inactive). -/
theorem C9_witness :
    (updateEnemies C9state 16 ⟨fun _ => 1/2, 0⟩).1.enemies[0]? =
      some { position := ⟨400, 540⟩, velocity := ⟨0, 80⟩, size := ⟨30, 30⟩,
             active := false, type := .basic, health := 50, points := 100,
             shootCooldown := 500 } ∧
    (handleCollisions C9state ⟨fun _ => 1/2, 0⟩).1.enemies[0]? =
      some { position := ⟨400, 540⟩, velocity := ⟨0, 80⟩, size := ⟨30, 30⟩,
             active := false, type := .basic, health := 50, points := 100,
             shootCooldown := 500 } ∧
    (handleCollisions C9state ⟨fun _ => 1/2, 0⟩).1.projectiles[0]? =
      some { position := ⟨400, 540⟩, velocity := ⟨0, 240⟩, size := ⟨3, 8⟩,
             active := false, damage := 20, owner := .enemy } ∧
    (handleCollisions C9state ⟨fun _ => 1/2, 0⟩).1.powerUps[0]? =
      some { position := ⟨400, 540⟩, velocity := ⟨0, 60⟩, size := ⟨25, 25⟩,
             active := false, type := .shield, duration := 4000 } := by
  have h := C9_terminalDeactivation (fun _ => 1) C9state 16 ⟨fun _ => 1/2, 0⟩ 16
  exact ⟨h.2.2.2.2.1 0 _ rfl rfl,
         h.2.2.2.2.2.2.2.2.1 0 _ rfl rfl,
         h.2.2.2.2.2.2.2.2.2.1 0 _ rfl rfl,
         h.2.2.2.2.2.2.2.2.2.2 0 _ rfl rfl⟩

/-! ## Claim C3 -/

/-- Concrete state for the C3 counterexample, negative-delta part:
`lastTime` 1000, so an `update` at timestamp 0 gives deltaTime −1000;
the left input is held. -/
def C3stateA : GameState :=
  { canvasWidth := 800, canvasHeight := 600, lastTime := 1000, frameCount := 5,
    score := 0, lives := 3, level := 1, gameSpeed := 1,
    input := ⟨true, false, false⟩,
    player := { position := ⟨400, 540⟩, velocity := ⟨0, 0⟩, size := ⟨30, 30⟩,
                active := true, health := 100, shootCooldown := 50, powerUps := [] },
    enemies := [], projectiles := [], powerUps := [], particles := [],
    enemySpawnTimer := 5000, powerUpSpawnTimer := 5000 }

/-- Concrete state for the C3 counterexample, zero-delta part: an
`update` at timestamp 1000 = `lastTime` gives deltaTime 0, with one
active power-up on screen. -/
def C3stateB : GameState :=
  { canvasWidth := 800, canvasHeight := 600, lastTime := 1000, frameCount := 5,
    score := 0, lives := 3, level := 1, gameSpeed := 1,
    input := ⟨false, false, false⟩,
    player := { position := ⟨400, 540⟩, velocity := ⟨0, 0⟩, size := ⟨30, 30⟩,
                active := true, health := 100, shootCooldown := 50, powerUps := [] },
    enemies := [], projectiles := [],
    powerUps := [{ position := ⟨100, 100⟩, velocity := ⟨0, 60⟩, size := ⟨25, 25⟩,
                   active := true, type := .rapidFire, duration := 5000 }],
    particles := [], enemySpawnTimer := 5000, powerUpSpawnTimer := 5000 }

/-- C3, counterexample: (i) with deltaTime −1000 and the left key held
the player's x moves from 400 to 700 — the code integrates the negative
delta instead of treating it as a no-op; (ii) with deltaTime exactly 0
the power-up's y still moves from 100 to 100.5, because the bob term
`sin(frameCount·0.1)·0.5` (here the injected sine value is 1, and the
real `Math.sin(0.6) ≠ 0` likewise) is not scaled by deltaTime.  Both
refute "performs no motion integration ... positions of player, ...
power-ups ... unchanged". -/
theorem C3_counterexample :
    (update (fun _ => 1) C3stateA 0 ⟨fun _ => 1/2, 0⟩).1.player.position.x = 700 ∧
    C3stateA.player.position.x = 400 ∧
    (update (fun _ => 1) C3stateB 1000 ⟨fun _ => 1/2, 0⟩).1.powerUps.map
      (fun p => p.position.y) = [201/2] ∧
    C3stateB.powerUps.map (fun p => p.position.y) = [100] := by
  refine ⟨?_, rfl, ?_, rfl⟩
  · norm_num [update, updatePlayer, updateEnemies, updateEnemiesAux,
      updateProjectiles, updatePowerUps, updateParticles, updateSpawning,
      handleCollisions, pass1Projectiles, pass2Projectiles, pass3Enemies,
      pass4PowerUps, updateGameState, cleanup, checkCollision, createParticles,
      createPlayerProjectile, Rng.next, PMap.has, Player.toObj, Projectile.toObj,
      PLAYER_SPEED, C3stateA]
  · norm_num [update, updatePlayer, updateEnemies, updateEnemiesAux,
      updateProjectiles, updatePowerUps, updatePowerUpStep, updateParticles,
      updateSpawning, handleCollisions, pass1Projectiles, pass2Projectiles,
      pass3Enemies, pass4PowerUps, updateGameState, cleanup, checkCollision,
      createParticles, Rng.next, PMap.has, Player.toObj, PowerUp.toObj,
      PLAYER_SPEED, C3stateB]

/-- With deltaTime 0, the enemy loop leaves every enemy's position
unchanged. -/
theorem updateEnemiesAux_dtzero (s : GameState) :
    ∀ (es : List Enemy) (r : Rng) (i : ℕ) (e : Enemy), es[i]? = some e →
      ∃ e', (updateEnemiesAux s 0 es r).1[i]? = some e' ∧
        e'.position.x = e.position.x ∧ e'.position.y = e.position.y := by
  intro es
  induction es with
  | nil => intro r i e hie; simp at hie
  | cons e0 rest ih =>
    intro r i e hie
    cases i with
    | zero =>
      simp only [List.getElem?_cons_zero, Option.some.injEq] at hie
      subst hie
      by_cases ha : e0.active = true
      · by_cases hcd : max 0 (e0.shootCooldown - 0) ≤ 0
        · by_cases hroll : (r.next).1 < 0.005
          · simp only [updateEnemiesAux, ha, if_true, hcd, hroll,
              List.getElem?_cons_zero]
            exact ⟨_, rfl, by norm_num, by norm_num⟩
          · simp only [updateEnemiesAux, ha, if_true, hcd, hroll, if_false,
              List.getElem?_cons_zero]
            exact ⟨_, rfl, by norm_num, by norm_num⟩
        · simp only [updateEnemiesAux, ha, if_true, hcd, if_false,
            List.getElem?_cons_zero]
          exact ⟨_, rfl, by norm_num, by norm_num⟩
      · simp only [updateEnemiesAux, ha, Bool.false_eq_true, if_false,
          List.getElem?_cons_zero]
        exact ⟨e0, rfl, rfl, rfl⟩
    | succ j =>
      simp only [List.getElem?_cons_succ] at hie
      by_cases ha : e0.active = true
      · by_cases hcd : max 0 (e0.shootCooldown - 0) ≤ 0
        · by_cases hroll : (r.next).1 < 0.005
          · simp only [updateEnemiesAux, ha, if_true, hcd, hroll,
              List.getElem?_cons_succ]
            exact ih _ j e hie
          · simp only [updateEnemiesAux, ha, if_true, hcd, hroll, if_false,
              List.getElem?_cons_succ]
            exact ih _ j e hie
        · simp only [updateEnemiesAux, ha, if_true, hcd, if_false,
            List.getElem?_cons_succ]
          exact ih _ j e hie
      · simp only [updateEnemiesAux, ha, Bool.false_eq_true, if_false,
          List.getElem?_cons_succ]
        exact ih _ j e hie

/-- For every deltaTime, the enemy loop leaves every updated (active)
enemy with a non-negative shoot cooldown, given non-negative random
values. -/
theorem updateEnemiesAux_cooldown (s : GameState) (deltaTime : ℚ) :
    ∀ (es : List Enemy) (r : Rng), (∀ n, 0 ≤ r.vals n) →
      ∀ (i : ℕ) (e : Enemy), es[i]? = some e → e.active = true →
      ∃ e', (updateEnemiesAux s deltaTime es r).1[i]? = some e' ∧
        0 ≤ e'.shootCooldown := by
  intro es
  induction es with
  | nil => intro r hr i e hie; simp at hie
  | cons e0 rest ih =>
    intro r hr i e hie hact
    cases i with
    | zero =>
      simp only [List.getElem?_cons_zero, Option.some.injEq] at hie
      subst hie
      by_cases hcd : max 0 (e0.shootCooldown - deltaTime) ≤ 0
      · by_cases hroll : (r.next).1 < 0.005
        · simp only [updateEnemiesAux, hact, if_true, hcd, hroll,
            List.getElem?_cons_zero]
          refine ⟨_, rfl, ?_⟩
          have h2 : (0 : ℚ) ≤ ((r.next).2.next).1 := hr _
          show (0 : ℚ) ≤ 1000 + ((r.next).2.next).1 * 2000
          nlinarith
        · simp only [updateEnemiesAux, hact, if_true, hcd, hroll, if_false,
            List.getElem?_cons_zero]
          exact ⟨_, rfl, le_max_left 0 _⟩
      · simp only [updateEnemiesAux, hact, if_true, hcd, if_false,
          List.getElem?_cons_zero]
        exact ⟨_, rfl, le_max_left 0 _⟩
    | succ j =>
      simp only [List.getElem?_cons_succ] at hie
      by_cases ha : e0.active = true
      · by_cases hcd : max 0 (e0.shootCooldown - deltaTime) ≤ 0
        · by_cases hroll : (r.next).1 < 0.005
          · simp only [updateEnemiesAux, ha, if_true, hcd, hroll,
              List.getElem?_cons_succ]
            exact ih (r.next.2.next.2) (fun n => hr n) j e hie hact
          · simp only [updateEnemiesAux, ha, if_true, hcd, hroll, if_false,
              List.getElem?_cons_succ]
            exact ih (r.next.2) (fun n => hr n) j e hie hact
        · simp only [updateEnemiesAux, ha, if_true, hcd, if_false,
            List.getElem?_cons_succ]
          exact ih r (fun n => hr n) j e hie hact
      · simp only [updateEnemiesAux, ha, Bool.false_eq_true, if_false,
          List.getElem?_cons_succ]
        exact ih r (fun n => hr n) j e hie hact

/-- C3, amended: a tick with deltaTime exactly 0 performs no motion
integration for the player (when already inside the clamp bounds),
enemies, projectiles, and particles; power-up positions are excepted —
they still move by the frame-count bob.  For every deltaTime, positive,
zero or negative, the player's shoot cooldown and every updated enemy's
shoot cooldown are floored at 0 and never negative (given non-negative
random values); a negative deltaTime integrates positions backwards
rather than acting as a no-op. -/
theorem C3_amended (s : GameState) (r : Rng) :
    (s.player.size.x / 2 ≤ s.player.position.x →
      s.player.position.x ≤ s.canvasWidth - s.player.size.x / 2 →
      (updatePlayer s 0).1.player.position.x = s.player.position.x) ∧
    ((updatePlayer s 0).1.player.position.y = s.player.position.y) ∧
    (∀ (i : ℕ) (e : Enemy), s.enemies[i]? = some e →
      ∃ e', (updateEnemies s 0 r).1.enemies[i]? = some e' ∧
        e'.position.x = e.position.x ∧ e'.position.y = e.position.y) ∧
    (∀ p : Projectile, (updateProjectileStep s 0 p).position.x = p.position.x ∧
      (updateProjectileStep s 0 p).position.y = p.position.y) ∧
    (∀ p : Particle, (updateParticleStep 0 p).position.x = p.position.x ∧
      (updateParticleStep 0 p).position.y = p.position.y) ∧
    (∀ deltaTime : ℚ, 0 ≤ (updatePlayer s deltaTime).1.player.shootCooldown) ∧
    (∀ deltaTime : ℚ, (∀ n, 0 ≤ r.vals n) →
      ∀ (i : ℕ) (e : Enemy), s.enemies[i]? = some e → e.active = true →
      ∃ e', (updateEnemies s deltaTime r).1.enemies[i]? = some e' ∧
        0 ≤ e'.shootCooldown) := by
  refine ⟨?_, ?_, ?_, ?_, ?_, ?_, ?_⟩
  · intro h1 h2
    simp only [updatePlayer, zero_div, mul_zero, add_zero]
    split_ifs <;>
      simp [min_eq_right h2, max_eq_right h1]
  · simp only [updatePlayer]
    split_ifs <;> rfl
  · intro i e hie
    simp only [updateEnemies]
    exact updateEnemiesAux_dtzero s s.enemies r i e hie
  · intro p
    by_cases hp : p.active = true
    · simp [updateProjectileStep, hp]
    · simp [updateProjectileStep, hp]
  · intro p
    by_cases hp : p.active = true
    · simp [updateParticleStep, hp]
    · simp [updateParticleStep, hp]
  · intro deltaTime
    simp only [updatePlayer]
    split_ifs <;> norm_num
  · intro deltaTime hr i e hie hact
    simp only [updateEnemies]
    exact updateEnemiesAux_cooldown s deltaTime s.enemies r hr i e hie hact

/-- Concrete state for the C3 witness enemy part: C3stateB with one
active enemy. -/
def C3stateC : GameState :=
  { C3stateB with
      enemies := [{ position := ⟨200, 100⟩, velocity := ⟨10, 80⟩, size := ⟨30, 30⟩,
                    active := true, type := .basic, health := 50, points := 100,
                    shootCooldown := 700 }] }

/-- C3, witness: the amended no-op and cooldown facts evaluated on the
concrete zero-delta state. -/
theorem C3_witness :
    (updatePlayer C3stateB 0).1.player.position.x = 400 ∧
    (∃ e', (updateEnemies C3stateC 0 ⟨fun _ => 1/2, 0⟩).1.enemies[0]? =
      some e' ∧ e'.position.x = 200 ∧ e'.position.y = 100) ∧
    0 ≤ (updatePlayer C3stateB (-500)).1.player.shootCooldown := by
  have h := C3_amended C3stateB ⟨fun _ => 1/2, 0⟩
  have h2 := C3_amended C3stateC ⟨fun _ => 1/2, 0⟩
  refine ⟨?_, ?_, h.2.2.2.2.2.1 (-500)⟩
  · have := h.1 (by norm_num [C3stateB]) (by norm_num [C3stateB])
    rw [this]
    rfl
  · exact h2.2.2.1 0 _ rfl

/-! ## Claim C5 -/

/-- Score-change events produced by a run of destructions: one event per
destroyed enemy, carrying the running cumulative score. -/
def scoreTrail (base : ℚ) : List ℚ → List Event
  | [] => []
  | p :: ps => Event.scoreChange (base + p) :: scoreTrail (base + p) ps

/-- Trails concatenate along partial sums. -/
theorem scoreTrail_append (l1 : List ℚ) :
    ∀ (base : ℚ) (l2 : List ℚ),
      scoreTrail base (l1 ++ l2) = scoreTrail base l1 ++ scoreTrail (base + l1.sum) l2 := by
  induction l1 with
  | nil => intro base l2; simp [scoreTrail]
  | cons p rest ih =>
    intro base l2
    simp only [List.cons_append, scoreTrail, List.sum_cons, List.append_eq]
    rw [ih (base + p) l2, ← add_assoc]

/-- State invariant on one enemy: an active enemy has positive health,
and its point value is non-negative. -/
def EnemyInv (e : Enemy) : Prop :=
  (e.active = true → 0 < e.health) ∧ 0 ≤ e.points

/-- Health never increases and points are untouched across pass 1. -/
def HP (e e' : Enemy) : Prop :=
  e'.health ≤ e.health ∧ e'.points = e.points

theorem hp_trans {a b c : Enemy} (h1 : HP a b) (h2 : HP b c) : HP a c :=
  ⟨h2.1.trans h1.1, h2.2.trans h1.2⟩

/-- The inner loop of pass 1 never increases health and keeps points. -/
theorem pass1Enemies_HP (projectile : Projectile) (hd : 0 ≤ projectile.damage) :
    ∀ (es : List Enemy) (score : ℚ) (r : Rng),
      List.Forall₂ HP es (pass1Enemies projectile es score r).enemies := by
  intro es
  induction es with
  | nil => intro score r; exact List.Forall₂.nil
  | cons e rest ih =>
    intro score r
    by_cases h : (e.active && checkCollision projectile.toObj e.toObj) = true
    · by_cases hk : e.health - projectile.damage ≤ 0
      · simp only [pass1Enemies, h, if_true, hk]
        exact List.Forall₂.cons
          ⟨by show e.health - projectile.damage ≤ e.health; linarith, rfl⟩ (ih _ _)
      · simp only [pass1Enemies, h, if_true, hk, if_false]
        exact List.Forall₂.cons
          ⟨by show e.health - projectile.damage ≤ e.health; linarith, rfl⟩ (ih _ _)
    · simp only [pass1Enemies, h, Bool.false_eq_true, if_false]
      exact List.Forall₂.cons ⟨le_refl _, rfl⟩ (ih _ _)

/-- Pass 1 never increases health and keeps points, when every player
projectile has non-negative damage. -/
theorem pass1Projectiles_HP :
    ∀ (ps : List Projectile) (es : List Enemy) (score : ℚ) (r : Rng),
      (∀ p ∈ ps, 0 ≤ p.damage) →
      List.Forall₂ HP es (pass1Projectiles ps es score r).enemies := by
  intro ps
  induction ps with
  | nil =>
    intro es score r _
    exact List.forall₂_same.mpr fun e _ => ⟨le_refl _, rfl⟩
  | cons p rest ih =>
    intro es score r hd
    by_cases h : (p.active && decide (p.owner = Owner.player)) = true
    · simp only [pass1Projectiles, h, if_true]
      exact @forall₂_trans _ HP (fun a b c hab hbc => hp_trans hab hbc) _ _ _
        (pass1Enemies_HP p (hd p (List.mem_cons_self p rest)) es score r)
        (ih _ _ _ fun q hq => hd q (List.mem_cons_of_mem p hq))
    · simp only [pass1Projectiles, h, Bool.false_eq_true, if_false]
      exact ih _ _ _ fun q hq => hd q (List.mem_cons_of_mem p hq)

/-- Per-element decomposition of the health zero-crossing value across
two monotone steps. -/
theorem cross_elem (f : Enemy × Enemy → ℚ)
    (hf : ∀ ee, f ee = if 0 < ee.1.health ∧ ee.2.health ≤ 0 then ee.1.points else 0)
    (a b c : Enemy) (hab : HP a b) (hbc : HP b c) :
    f (a, c) = f (a, b) + f (b, c) := by
  rw [hf, hf, hf]
  obtain ⟨h1, p1⟩ := hab
  obtain ⟨h2, p2⟩ := hbc
  by_cases ha : 0 < a.health
  · by_cases hb : b.health ≤ 0
    · rw [if_pos ⟨ha, by linarith⟩, if_pos ⟨ha, hb⟩, if_neg (by rintro ⟨x, -⟩; linarith)]
      ring
    · by_cases hc : c.health ≤ 0
      · rw [if_pos ⟨ha, hc⟩, if_neg (by rintro ⟨-, x⟩; exact hb x),
          if_pos ⟨by linarith, hc⟩, p1]
        ring
      · rw [if_neg (by rintro ⟨-, x⟩; exact hc x), if_neg (by rintro ⟨-, x⟩; exact hb x),
          if_neg (by rintro ⟨-, x⟩; exact hc x)]
        ring
  · rw [if_neg (by rintro ⟨x, -⟩; exact ha x), if_neg (by rintro ⟨x, -⟩; exact ha x),
      if_neg (by rintro ⟨x, -⟩; linarith)]
    ring

/-- List-level decomposition of the crossing sum across two monotone
steps. -/
theorem crossSum_trans :
    ∀ {pre mid post : List Enemy}, List.Forall₂ HP pre mid → List.Forall₂ HP mid post →
      ((pre.zip post).map
        (fun ee => if 0 < ee.1.health ∧ ee.2.health ≤ 0 then ee.1.points else 0)).sum =
      ((pre.zip mid).map
        (fun ee => if 0 < ee.1.health ∧ ee.2.health ≤ 0 then ee.1.points else 0)).sum +
      ((mid.zip post).map
        (fun ee => if 0 < ee.1.health ∧ ee.2.health ≤ 0 then ee.1.points else 0)).sum := by
  intro pre mid post h1 h2
  induction h1 generalizing post with
  | nil => cases h2; simp
  | cons hab htail ih =>
    cases h2 with
    | cons hbc htail' =>
      simp only [List.zip_cons_cons, List.map_cons, List.sum_cons, ih htail']
      rw [cross_elem (fun ee => if 0 < ee.1.health ∧ ee.2.health ≤ 0 then ee.1.points else 0)
        (fun ee => rfl) _ _ _ hab hbc]
      ring

/-- List-level decomposition of the crossing count across two monotone
steps. -/
theorem crossCount_trans :
    ∀ {pre mid post : List Enemy}, List.Forall₂ HP pre mid → List.Forall₂ HP mid post →
      (pre.zip post).countP
        (fun ee => decide (0 < ee.1.health) && decide (ee.2.health ≤ 0)) =
      (pre.zip mid).countP
        (fun ee => decide (0 < ee.1.health) && decide (ee.2.health ≤ 0)) +
      (mid.zip post).countP
        (fun ee => decide (0 < ee.1.health) && decide (ee.2.health ≤ 0)) := by
  intro pre mid post h1 h2
  induction h1 generalizing post with
  | nil => cases h2; simp
  | cons hab htail ih =>
    rename_i a b l1 l2
    cases h2 with
    | cons hbc htail' =>
      rename_i c l3
      simp only [List.zip_cons_cons, List.countP_cons, ih htail']
      obtain ⟨hh1, -⟩ := hab
      obtain ⟨hh2, -⟩ := hbc
      by_cases ha : 0 < a.health
      · by_cases hb : b.health ≤ 0
        · have hc : c.health ≤ 0 := by linarith
          simp [ha, hb, hc, not_lt.mpr hb, decide_eq_true_eq]
          omega
        · by_cases hc : c.health ≤ 0
          · have hbpos : 0 < b.health := lt_of_not_le hb
            simp [ha, hb, hc, hbpos, decide_eq_true_eq]
            omega
          · simp [ha, hb, hc, decide_eq_true_eq]
      · have hb : ¬ 0 < b.health := fun x => ha (by linarith)
        simp [ha, hb, decide_eq_true_eq]

/-- The crossing value and count of a list zipped with itself vanish. -/
theorem crossZipSelf (es : List Enemy) :
    ((es.zip es).map
      (fun ee => if 0 < ee.1.health ∧ ee.2.health ≤ 0 then ee.1.points else 0)).sum = 0 ∧
    (es.zip es).countP
      (fun ee => decide (0 < ee.1.health) && decide (ee.2.health ≤ 0)) = 0 := by
  induction es with
  | nil => simp
  | cons e rest ih =>
    simp only [List.zip_cons_cons, List.map_cons, List.sum_cons, List.countP_cons]
    constructor
    · rw [if_neg (by rintro ⟨x, y⟩; linarith), ih.1]
      ring
    · have : (decide (0 < e.health) && decide (e.health ≤ 0)) = false := by
        by_cases hx : 0 < e.health
        · have hy : ¬ e.health ≤ 0 := by linarith
          simp [hx, hy]
        · simp [hx]
      simp [this, ih.2]

/-- Full characterization of the inner loop of pass 1 for one
projectile: there is a list `pts` of the point values of the enemies
destroyed (in order) such that the score increases by their sum, the
events are exactly one score-change per destruction carrying the running
score, destructions correspond exactly to health crossings from >0 to
≤0, the values are non-negative, and the enemy invariant is preserved. -/
theorem pass1Enemies_spec (projectile : Projectile) :
    ∀ (es : List Enemy) (score : ℚ) (r : Rng), (∀ e ∈ es, EnemyInv e) →
      ∃ pts : List ℚ,
        (pass1Enemies projectile es score r).score = score + pts.sum ∧
        (pass1Enemies projectile es score r).events = scoreTrail score pts ∧
        pts.sum = ((es.zip (pass1Enemies projectile es score r).enemies).map
          (fun ee => if 0 < ee.1.health ∧ ee.2.health ≤ 0 then ee.1.points else 0)).sum ∧
        pts.length = (es.zip (pass1Enemies projectile es score r).enemies).countP
          (fun ee => decide (0 < ee.1.health) && decide (ee.2.health ≤ 0)) ∧
        (∀ x ∈ pts, 0 ≤ x) ∧
        (∀ e' ∈ (pass1Enemies projectile es score r).enemies, EnemyInv e') := by
  intro es
  induction es with
  | nil =>
    intro score r _
    exact ⟨[], by simp [pass1Enemies], by simp [pass1Enemies, scoreTrail],
      by simp [pass1Enemies], by simp [pass1Enemies], by simp,
      by simp [pass1Enemies]⟩
  | cons e rest ih =>
    intro score r hinv
    have hinvh := hinv e (List.mem_cons_self e rest)
    have hinvt := fun q hq => hinv q (List.mem_cons_of_mem e hq)
    by_cases h : (e.active && checkCollision projectile.toObj e.toObj) = true
    · have hact : e.active = true := ((Bool.and_eq_true ..).mp h).1
      have hpos : 0 < e.health := hinvh.1 hact
      by_cases hk : e.health - projectile.damage ≤ 0
      · obtain ⟨pts, h1, h2, h3, h4, h5, h6⟩ := ih (score + e.points)
          (createParticles e.position "#ffd93d" 10
            (createParticles e.position "#ff6b6b" 5 r).2).2 hinvt
        refine ⟨e.points :: pts, ?_, ?_, ?_, ?_, ?_, ?_⟩
        · simp only [pass1Enemies, h, if_true, hk, List.sum_cons]
          rw [h1]; ring
        · simp only [pass1Enemies, h, if_true, hk, scoreTrail]
          rw [h2]
        · simp only [pass1Enemies, h, if_true, hk, List.zip_cons_cons, List.map_cons,
            List.sum_cons, and_true]
          rw [if_pos hpos, h3]
        · simp only [pass1Enemies, h, if_true, hk, List.zip_cons_cons, List.countP_cons,
            List.length_cons]
          have hp : (decide (0 < e.health) &&
              decide ((e.health - projectile.damage : ℚ) ≤ 0)) = true := by
            simp [hpos, hk]
          rw [h4]
          simp [hp, hpos]
        · intro x hx
          rcases List.mem_cons.mp hx with rfl | hx
          · exact hinvh.2
          · exact h5 x hx
        · intro e' he'
          simp only [pass1Enemies, h, if_true, hk, List.mem_cons] at he'
          rcases he' with rfl | he'
          · exact ⟨fun habs => (nomatch habs), hinvh.2⟩
          · exact h6 e' he'
      · obtain ⟨pts, h1, h2, h3, h4, h5, h6⟩ := ih score
          (createParticles e.position "#ff6b6b" 5 r).2 hinvt
        refine ⟨pts, ?_, ?_, ?_, ?_, h5, ?_⟩
        · simp only [pass1Enemies, h, if_true, hk, if_false]
          rw [h1]
        · simp only [pass1Enemies, h, if_true, hk, if_false]
          rw [h2]
        · simp only [pass1Enemies, h, if_true, hk, if_false, List.zip_cons_cons,
            List.map_cons, List.sum_cons]
          rw [if_neg (by rintro ⟨-, x⟩; exact x), h3]
          ring
        · simp only [pass1Enemies, h, if_true, hk, if_false, List.zip_cons_cons,
            List.countP_cons]
          have hp : (decide (0 < e.health) &&
              decide ((e.health - projectile.damage : ℚ) ≤ 0)) = false := by
            simp [hk]
          rw [h4]
          simp [hp]
        · intro e' he'
          simp only [pass1Enemies, h, if_true, hk, if_false, List.mem_cons] at he'
          rcases he' with rfl | he'
          · exact ⟨fun _ => by show (0:ℚ) < e.health - projectile.damage; linarith, hinvh.2⟩
          · exact h6 e' he'
    · obtain ⟨pts, h1, h2, h3, h4, h5, h6⟩ := ih score r hinvt
      refine ⟨pts, ?_, ?_, ?_, ?_, h5, ?_⟩
      · simp only [pass1Enemies, h, Bool.false_eq_true, if_false]
        rw [h1]
      · simp only [pass1Enemies, h, Bool.false_eq_true, if_false]
        rw [h2]
      · simp only [pass1Enemies, h, Bool.false_eq_true, if_false, List.zip_cons_cons,
          List.map_cons, List.sum_cons]
        rw [if_neg (by rintro ⟨x, y⟩; linarith), h3]
        ring
      · simp only [pass1Enemies, h, Bool.false_eq_true, if_false, List.zip_cons_cons,
          List.countP_cons]
        have hp : (decide (0 < e.health) && decide (e.health ≤ 0)) = false := by
          by_cases hx : 0 < e.health
          · have hy : ¬ e.health ≤ 0 := by linarith
            simp [hx, hy]
          · simp [hx]
        rw [h4]
        simp [hp]
      · intro e' he'
        simp only [pass1Enemies, h, Bool.false_eq_true, if_false, List.mem_cons] at he'
        rcases he' with rfl | he'
        · exact hinvh
        · exact h6 e' he'

/-- Full characterization of pass 1: score delta, score-change events,
and health crossings correspond exactly, with the running score carried
by each event. -/
theorem pass1Projectiles_spec :
    ∀ (ps : List Projectile) (es : List Enemy) (score : ℚ) (r : Rng),
      (∀ p ∈ ps, 0 ≤ p.damage) → (∀ e ∈ es, EnemyInv e) →
      ∃ pts : List ℚ,
        (pass1Projectiles ps es score r).score = score + pts.sum ∧
        (pass1Projectiles ps es score r).events = scoreTrail score pts ∧
        pts.sum = ((es.zip (pass1Projectiles ps es score r).enemies).map
          (fun ee => if 0 < ee.1.health ∧ ee.2.health ≤ 0 then ee.1.points else 0)).sum ∧
        pts.length = (es.zip (pass1Projectiles ps es score r).enemies).countP
          (fun ee => decide (0 < ee.1.health) && decide (ee.2.health ≤ 0)) ∧
        (∀ x ∈ pts, 0 ≤ x) ∧
        (∀ e' ∈ (pass1Projectiles ps es score r).enemies, EnemyInv e') := by
  intro ps
  induction ps with
  | nil =>
    intro es score r _ hinv
    exact ⟨[], by simp [pass1Projectiles], by simp [pass1Projectiles, scoreTrail],
      by simp [pass1Projectiles, (crossZipSelf es).1],
      by simp [pass1Projectiles, (crossZipSelf es).2], by simp,
      by simpa [pass1Projectiles] using hinv⟩
  | cons p rest ih =>
    intro es score r hd hinv
    by_cases h : (p.active && decide (p.owner = Owner.player)) = true
    · obtain ⟨pts1, a1, a2, a3, a4, a5, a6⟩ := pass1Enemies_spec p es score r hinv
      obtain ⟨pts2, b1, b2, b3, b4, b5, b6⟩ := ih (pass1Enemies p es score r).enemies
        (pass1Enemies p es score r).score (pass1Enemies p es score r).rng
        (fun q hq => hd q (List.mem_cons_of_mem p hq)) a6
      have hHP1 : List.Forall₂ HP es (pass1Enemies p es score r).enemies :=
        pass1Enemies_HP p (hd p (List.mem_cons_self p rest)) es score r
      have hHP2 : List.Forall₂ HP (pass1Enemies p es score r).enemies
          (pass1Projectiles rest (pass1Enemies p es score r).enemies
            (pass1Enemies p es score r).score (pass1Enemies p es score r).rng).enemies :=
        pass1Projectiles_HP rest _ _ _ fun q hq => hd q (List.mem_cons_of_mem p hq)
      refine ⟨pts1 ++ pts2, ?_, ?_, ?_, ?_, ?_, ?_⟩
      · simp only [pass1Projectiles, h, if_true, List.sum_append]
        rw [b1, a1]
        ring
      · simp only [pass1Projectiles, h, if_true]
        rw [b2, a2, a1, scoreTrail_append]
      · simp only [pass1Projectiles, h, if_true, List.sum_append]
        rw [crossSum_trans hHP1 hHP2, a3, b3]
      · simp only [pass1Projectiles, h, if_true, List.length_append]
        rw [crossCount_trans hHP1 hHP2, a4, b4]
      · intro x hx
        rcases List.mem_append.mp hx with hx | hx
        · exact a5 x hx
        · exact b5 x hx
      · intro e' he'
        simp only [pass1Projectiles, h, if_true] at he'
        exact b6 e' he'
    · obtain ⟨pts, h1, h2, h3, h4, h5, h6⟩ := ih es score r
        (fun q hq => hd q (List.mem_cons_of_mem p hq)) hinv
      refine ⟨pts, ?_, ?_, ?_, ?_, h5, ?_⟩
      · simp only [pass1Projectiles, h, Bool.false_eq_true, if_false]
        exact h1
      · simp only [pass1Projectiles, h, Bool.false_eq_true, if_false]
        exact h2
      · simp only [pass1Projectiles, h, Bool.false_eq_true, if_false]
        exact h3
      · simp only [pass1Projectiles, h, Bool.false_eq_true, if_false]
        exact h4
      · intro e' he'
        simp only [pass1Projectiles, h, Bool.false_eq_true, if_false] at he'
        exact h6 e' he'

/-- Crossing sum and count are unchanged by a post-map that preserves
health and points (such as pass 3's deactivation map). -/
theorem cross_zip_map (g : Enemy → Enemy)
    (hg : ∀ e, (g e).health = e.health ∧ (g e).points = e.points) :
    ∀ (es mid : List Enemy),
      ((es.zip (mid.map g)).map
        (fun ee => if 0 < ee.1.health ∧ ee.2.health ≤ 0 then ee.1.points else 0)).sum =
      ((es.zip mid).map
        (fun ee => if 0 < ee.1.health ∧ ee.2.health ≤ 0 then ee.1.points else 0)).sum ∧
      (es.zip (mid.map g)).countP
        (fun ee => decide (0 < ee.1.health) && decide (ee.2.health ≤ 0)) =
      (es.zip mid).countP
        (fun ee => decide (0 < ee.1.health) && decide (ee.2.health ≤ 0)) := by
  intro es
  induction es with
  | nil => intro mid; simp
  | cons a as ih =>
    intro mid
    cases mid with
    | nil => simp
    | cons b bs =>
      simp only [List.map_cons, List.zip_cons_cons, List.sum_cons, List.countP_cons,
        (hg b).1, (hg b).2, (ih bs).1, (ih bs).2]
      exact ⟨trivial, trivial⟩

/-- C5: over a collision-resolution call the score is monotone
non-decreasing, and there is a per-destruction increment list `pts` such
that the score rises by exactly the sum of the destroyed enemies' point
values — one per enemy whose health crosses from >0 to ≤0 during the
call — and the score-change events are exactly one per crossing,
carrying the running (new) score at the moment each destruction
happens. -/
theorem C5_score (s : GameState) (r : Rng)
    (hdam : ∀ p ∈ s.projectiles, 0 ≤ p.damage)
    (hinv : ∀ e ∈ s.enemies, EnemyInv e) :
    s.score ≤ (handleCollisions s r).1.score ∧
    ∃ pts : List ℚ,
      (∀ x ∈ pts, 0 ≤ x) ∧
      (handleCollisions s r).1.score = s.score + pts.sum ∧
      pts.sum = ((s.enemies.zip (handleCollisions s r).1.enemies).map
        (fun ee => if 0 < ee.1.health ∧ ee.2.health ≤ 0 then ee.1.points else 0)).sum ∧
      pts.length = (s.enemies.zip (handleCollisions s r).1.enemies).countP
        (fun ee => decide (0 < ee.1.health) && decide (ee.2.health ≤ 0)) ∧
      (handleCollisions s r).2.1.filter Event.isScoreChange = scoreTrail s.score pts := by
  obtain ⟨pts, h1, h2, h3, h4, h5, h6⟩ :=
    pass1Projectiles_spec s.projectiles s.enemies s.score r hdam hinv
  have hscore : (handleCollisions s r).1.score = s.score + pts.sum := by
    simp only [handleCollisions]
    exact h1
  have hg : ∀ e : Enemy,
      ((fun e => if pass3Hit s.player e then { e with active := false } else e) e).health =
        e.health ∧
      ((fun e => if pass3Hit s.player e then { e with active := false } else e) e).points =
        e.points := by
    intro e
    by_cases hh : pass3Hit s.player e = true <;> simp [hh]
  refine ⟨?_, pts, h5, hscore, ?_, ?_, ?_⟩
  · rw [hscore]
    have := List.sum_nonneg h5
    linarith
  · simp only [handleCollisions]
    rw [pass3Enemies_enemies, (cross_zip_map _ hg s.enemies _).1]
    exact h3
  · simp only [handleCollisions]
    rw [pass3Enemies_enemies, (cross_zip_map _ hg s.enemies _).2]
    exact h4
  · simp only [handleCollisions]
    rw [List.filter_append, List.filter_append]
    have f1 : (pass1Projectiles s.projectiles s.enemies s.score r).events.filter
        Event.isScoreChange =
        (pass1Projectiles s.projectiles s.enemies s.score r).events :=
      List.filter_eq_self.mpr (pass1Projectiles_events s.projectiles s.enemies s.score r)
    rw [f1]
    cases hshield : PMap.has s.player.powerUps .shield with
    | true =>
      rw [(pass2Projectiles_shield s.player _ _ _).2,
        (pass3Enemies_shield s.player _ _ _).2]
      simp only [List.filter_nil, List.append_nil]
      rw [h2]
    | false =>
      have f2 := (pass2Projectiles_noShield s.player
        (pass1Projectiles s.projectiles s.enemies s.score r).projectiles s.lives
        (pass1Projectiles s.projectiles s.enemies s.score r).rng).2.2.2
      have f3 := (pass3Enemies_noShield s.player
        (pass1Projectiles s.projectiles s.enemies s.score r).enemies
        (pass2Projectiles s.player false
          (pass1Projectiles s.projectiles s.enemies s.score r).projectiles s.lives
          (pass1Projectiles s.projectiles s.enemies s.score r).rng).lives
        (pass2Projectiles s.player false
          (pass1Projectiles s.projectiles s.enemies s.score r).projectiles s.lives
          (pass1Projectiles s.projectiles s.enemies s.score r).rng).rng).2.2.2
    /- both later passes emit no score-change events -/
      rw [List.filter_eq_nil_iff.mpr (fun ev hev => by simp [f2 ev hev]),
        List.filter_eq_nil_iff.mpr (fun ev hev => by simp [f3 ev hev])]
      simp only [List.filter_nil, List.append_nil]
      rw [h2]

/-- Concrete state for the C5 witness: one player projectile about to
destroy a fast enemy worth 150 points. -/
def C5state : GameState :=
  { canvasWidth := 800, canvasHeight := 600, lastTime := 0, frameCount := 0,
    score := 0, lives := 3, level := 1, gameSpeed := 1,
    input := ⟨false, false, false⟩,
    player := { position := ⟨100, 540⟩, velocity := ⟨0, 0⟩, size := ⟨30, 30⟩,
                active := true, health := 100, shootCooldown := 0, powerUps := [] },
    enemies := [{ position := ⟨395, 295⟩, velocity := ⟨0, 120⟩, size := ⟨25, 25⟩,
                  active := true, type := .fast, health := 25, points := 150,
                  shootCooldown := 500 }],
    projectiles := [{ position := ⟨400, 300⟩, velocity := ⟨0, -400⟩, size := ⟨4, 12⟩,
                      active := true, damage := 25, owner := .player }],
    powerUps := [], particles := [], enemySpawnTimer := 5000,
    powerUpSpawnTimer := 5000 }

/-- C5, witness: the score-monotonicity part of the characterization
evaluated at the concrete destroy-one-enemy state. -/
theorem C5_witness :
    C5state.score ≤ (handleCollisions C5state ⟨fun _ => 1/2, 0⟩).1.score :=
  (C5_score C5state ⟨fun _ => 1/2, 0⟩
    (by
      intro p hp
      simp only [C5state, List.mem_singleton] at hp
      subst hp
      norm_num)
    (by
      intro e he
      simp only [C5state, List.mem_singleton] at he
      subst he
      exact ⟨fun _ => by norm_num, by norm_num⟩)).1

end CosmicDefender
